import Mathlib

/-!
Verification of the GitWars simulation engine (`main.py`, `config.py`).

The embedding is a shallow translation of the engine's core into Lean:
Python floats become rationals (`ℚ`), Python ints become `ℤ`/`ℕ`, and the
mutating methods of `main.py` become pure state-transforming functions with
the same names.  Where the source computes an irrational quantity
(`math.sqrt`, `math.cos`, `math.sin`, `math.atan2`) the model takes the
computed value as an explicit argument ("oracle value"); theorems that
depend on its defining property state that property as a hypothesis
(e.g. `len * len = dx * dx + dy * dy` for a vector norm), and witnesses
instantiate it with exact rational solutions.  Randomness
(`random.random()`, `random.randint`) is likewise passed in as explicit
draw arguments.  Rendering, audio and particle effects are out of scope
and omitted, as are the fields that exist only for them.
-/

namespace GitWars

/-- 2-D vector over `ℚ`, standing for `pygame.math.Vector2`. -/
structure Vec2 where
  x : ℚ
  y : ℚ
deriving Repr, DecidableEq

instance : Add Vec2 := ⟨fun a b => ⟨a.x + b.x, a.y + b.y⟩⟩
instance : SMul ℚ Vec2 := ⟨fun c v => ⟨c * v.x, c * v.y⟩⟩
instance : Zero Vec2 := ⟨⟨0, 0⟩⟩

/-- `int(q)` of Python / the C cast `pygame.Rect` performs on a float
coordinate: truncation toward zero. -/
def ratTrunc (q : ℚ) : ℤ :=
  if 0 ≤ q then ⌊q⌋ else -⌊-q⌋

/-- `pygame.Rect`: integer left/top corner plus width/height. -/
structure Rect where
  left : ℤ
  top : ℤ
  w : ℤ
  h : ℤ
deriving Repr, DecidableEq

def Rect.right (r : Rect) : ℤ := r.left + r.w

def Rect.bottom (r : Rect) : ℤ := r.top + r.h

/-- `pygame.Rect.colliderect`: strict overlap on both axes (rectangles that
merely touch do not collide). -/
def Rect.colliderect (a b : Rect) : Bool :=
  decide (a.left < b.right ∧ a.right > b.left ∧ a.top < b.bottom ∧ a.bottom > b.top)

/-- `clamp` from `main.py`. -/
def clamp (value min_val max_val : ℚ) : ℚ :=
  max min_val (min max_val value)

-- ===========================================================================
-- Constants from config.py
-- ===========================================================================

def SCREEN_WIDTH : ℤ := 1280
def SCREEN_HEIGHT : ℤ := 720
def TANK_SIZE : ℤ := 40
def TANK_ENGINE_FORCE : ℚ := 1200
def TANK_FRICTION : ℚ := 5
def TANK_MASS : ℚ := 1
def TANK_MAX_HEALTH : ℚ := 1500
def TANK_STARTING_AMMO : ℤ := 1500
def TANK_RECOIL : ℚ := 3
def BULLET_SPEED : ℚ := 12
def BULLET_DAMAGE : ℚ := 15
def BULLET_SIZE : ℤ := 6
def CRITICAL_HIT_MULTIPLIER : ℚ := 3
def SCRAMBLE_DURATION : ℚ := 60
def SCRAMBLE_TOP_SURVIVORS : ℕ := 2
def SCRAMBLE_COIN_SPAWN_INTERVAL : ℚ := 1/4
def SCRAMBLE_MAX_COINS : ℕ := 20
def SCRAMBLE_KNOCKBACK : ℚ := 20
def LABYRINTH_ZONE_SHRINK_INTERVAL : ℚ := 13
def LABYRINTH_ZONE_DAMAGE : ℚ := 50
def LABYRINTH_FINAL_SURVIVORS : ℕ := 2
def DANGER_ZONE_SPAWN_INTERVAL : ℚ := 10
def DANGER_ZONE_WARNING_DURATION : ℚ := 2
def DANGER_ZONE_ACTIVE_DURATION : ℚ := 5
def DANGER_ZONE_RADIUS : ℚ := 120
def DANGER_ZONE_DAMAGE : ℚ := 75
def DANGER_ZONE_KNOCKBACK : ℚ := 40
def DANGER_ZONE_BLAST_INTERVAL : ℚ := 1/2
def JUGGERNAUT_SIZE : ℤ := 120
def JUGGERNAUT_SPEED : ℚ := 20
def JUGGERNAUT_MELEE_DAMAGE : ℚ := 5
def JUGGERNAUT_MELEE_KNOCKBACK : ℚ := 800
def JUGGERNAUT_IDLE_TIME : ℚ := 0
def JUGGERNAUT_CHARGE_TIME : ℚ := 0
def JUGGERNAUT_BURST_COUNT : ℕ := 10
def JUGGERNAUT_BURST_INTERVAL : ℚ := 1/5
def JUGGERNAUT_BULLET_SPEED : ℚ := 6
def JUGGERNAUT_BULLET_DAMAGE : ℚ := 50
def LEVEL3_HEALTH_MULTIPLIER : ℚ := 2
def GRID_CELL_SIZE : ℚ := 50
def COIN_SIZE : ℤ := 20
def COIN_VALUE : ℤ := 1
def BOT_TIMEOUT_MS : ℚ := 100

-- ===========================================================================
-- Bullet
-- ===========================================================================

/-- `Bullet` from `main.py` (trail/color dropped: rendering only). -/
structure Bullet where
  x : ℚ
  y : ℚ
  vx : ℚ
  vy : ℚ
  owner_id : ℤ
  damage : ℚ
  is_critical : Bool
  alive : Bool
deriving Repr, DecidableEq

/-- `Bullet.__init__`.  `dir` is the oracle value of
`(cos(radians(angle)), sin(radians(angle)))`; `critDraw` the oracle value of
`random.random() < CRITICAL_HIT_CHANCE`. -/
def Bullet.init (x y : ℚ) (dir : Vec2) (owner_id : ℤ) (critDraw : Bool) : Bullet :=
  { x := x, y := y
    vx := dir.x * BULLET_SPEED
    vy := dir.y * BULLET_SPEED
    owner_id := owner_id
    is_critical := critDraw
    damage := if critDraw then BULLET_DAMAGE * CRITICAL_HIT_MULTIPLIER else BULLET_DAMAGE
    alive := true }

/-- `Bullet.update`: advance by velocity; kill the bullet when it leaves the
screen bounds. -/
def Bullet.update (b : Bullet) : Bullet :=
  let x := b.x + b.vx
  let y := b.y + b.vy
  { b with x := x, y := y
           alive := if x < 0 ∨ x > (SCREEN_WIDTH : ℚ) ∨ y < 0 ∨ y > (SCREEN_HEIGHT : ℚ)
                    then false else b.alive }

/-- `Bullet.get_rect`. -/
def Bullet.get_rect (b : Bullet) : Rect :=
  { left := ratTrunc (b.x - (BULLET_SIZE : ℚ))
    top := ratTrunc (b.y - (BULLET_SIZE : ℚ))
    w := BULLET_SIZE * 2
    h := BULLET_SIZE * 2 }

-- ===========================================================================
-- Wall
-- ===========================================================================

/-- `Wall` from `main.py`. -/
structure Wall where
  x : ℚ
  y : ℚ
  width : ℚ
  height : ℚ
deriving Repr, DecidableEq

/-- `Wall.get_rect`. -/
def Wall.get_rect (w : Wall) : Rect :=
  { left := ratTrunc w.x
    top := ratTrunc w.y
    w := ratTrunc w.width
    h := ratTrunc w.height }

-- ===========================================================================
-- Tank
-- ===========================================================================

/-- `Tank` from `main.py`.  The redundant `x`/`y` mirrors of `pos` are not
modelled: the source keeps them equal to `pos` at every point where another
component reads them, so `pos` stands for both.  Rendering-only fields
(color, cached surfaces, muzzle-flash timer, team name) are dropped. -/
structure Tank where
  id : ℤ
  angle : ℚ
  health : ℚ
  max_health : ℚ
  ammo : ℤ
  coins : ℤ
  alive : Bool
  mass : ℚ
  pos : Vec2
  velocity : Vec2
  acceleration : Vec2
  friction : ℚ
  is_jammed : Bool
  jam_timer : ℚ
  shoot_cooldown : ℚ
  last_action : Option String
deriving Repr, DecidableEq

/-- `Tank.__init__` (mode-independent part). -/
def Tank.init (tank_id : ℤ) (x y : ℚ) : Tank :=
  { id := tank_id
    angle := 0
    health := TANK_MAX_HEALTH
    max_health := TANK_MAX_HEALTH
    ammo := TANK_STARTING_AMMO
    coins := 0
    alive := true
    mass := TANK_MASS
    pos := ⟨x, y⟩
    velocity := 0
    acceleration := 0
    friction := TANK_FRICTION
    is_jammed := false
    jam_timer := 0
    shoot_cooldown := 0
    last_action := none }

/-- `Tank.apply_force`: `acceleration += force / mass`. -/
def Tank.apply_force (t : Tank) (force : Vec2) : Tank :=
  { t with acceleration := t.acceleration + (1 / t.mass) • force }

/-- `Tank.get_rect` (`TANK_SIZE // 2 = 20`). -/
def Tank.get_rect (t : Tank) : Rect :=
  { left := ratTrunc (t.pos.x - ((TANK_SIZE / 2 : ℤ) : ℚ))
    top := ratTrunc (t.pos.y - ((TANK_SIZE / 2 : ℤ) : ℚ))
    w := TANK_SIZE
    h := TANK_SIZE }

/-- `Tank.take_damage`. -/
def Tank.take_damage (t : Tank) (damage : ℚ) : Tank :=
  let health := t.health - damage
  if health ≤ 0 then { t with health := 0, alive := false }
  else { t with health := health }

/-- `Tank.apply_knockback`: an impulse, added directly to `velocity`.
`dir` is the oracle value of `(cos(radians(angle)), sin(radians(angle)))`. -/
def Tank.apply_knockback (t : Tank) (dir : Vec2) (force : ℚ) : Tank :=
  { t with velocity := t.velocity + ⟨dir.x * force * 15, dir.y * force * 15⟩ }

/-- `Tank.move`.  `jamDraw` is the oracle value of
`random.random() < JAM_CHANCE`; `len` the oracle value of
`math.sqrt(dx*dx + dy*dy)`; `newAngle` the oracle value of
`math.degrees(math.atan2(dy, dx))`. -/
def Tank.move (t : Tank) (dx dy : ℚ) (jamDraw : Bool) (len : ℚ) (newAngle : ℚ) : Tank :=
  if t.is_jammed then t
  else if jamDraw then { t with is_jammed := true, jam_timer := 1 }
  else if len > 0 then
    { t with
      acceleration := t.acceleration +
        (1 / t.mass) • ⟨dx / len * TANK_ENGINE_FORCE, dy / len * TANK_ENGINE_FORCE⟩
      angle := newAngle }
  else t

/-- `Tank.shoot`.  `dir` is the oracle value of
`(cos(radians(target_angle)), sin(radians(target_angle)))`; `critDraw` the
critical-hit draw consumed by the spawned bullet's constructor.  Returns the
updated tank and the spawned bullet, if any. -/
def Tank.shoot (t : Tank) (dir : Vec2) (critDraw : Bool) : Tank × Option Bullet :=
  if t.is_jammed ∨ t.ammo ≤ 0 ∨ t.shoot_cooldown > 0 then (t, none)
  else
    let t1 : Tank := { t with ammo := t.ammo - 1, shoot_cooldown := 1/5 }
    -- Recoil as force (source comment): goes through apply_force.
    let t2 := t1.apply_force ⟨-dir.x * TANK_RECOIL * 2, -dir.y * TANK_RECOIL * 2⟩
    let barrel_x := t.pos.x + dir.x * ((TANK_SIZE : ℚ) / 2 + 5)
    let barrel_y := t.pos.y + dir.y * ((TANK_SIZE : ℚ) / 2 + 5)
    (t2, some (Bullet.init barrel_x barrel_y dir t.id critDraw))

/-- One iteration of the wall-collision loop in `Tank.update`: test the
tank's current rectangle against one wall and resolve along the axis of
minimum overlap, zeroing only that axis of the velocity. -/
def Tank.resolveWall (t : Tank) (w : Wall) : Tank :=
  let tank_rect := t.get_rect
  let wall_rect := w.get_rect
  if tank_rect.colliderect wall_rect then
    let overlap_left := tank_rect.right - wall_rect.left
    let overlap_right := wall_rect.right - tank_rect.left
    let overlap_top := tank_rect.bottom - wall_rect.top
    let overlap_bottom := wall_rect.bottom - tank_rect.top
    let min_overlap_x := min overlap_left overlap_right
    let min_overlap_y := min overlap_top overlap_bottom
    if min_overlap_x < min_overlap_y then
      let px : ℚ :=
        if overlap_left < overlap_right then t.pos.x - ((overlap_left + 1 : ℤ) : ℚ)
        else t.pos.x + ((overlap_right + 1 : ℤ) : ℚ)
      { t with pos := ⟨px, t.pos.y⟩, velocity := ⟨0, t.velocity.y⟩ }
    else
      let py : ℚ :=
        if overlap_top < overlap_bottom then t.pos.y - ((overlap_top + 1 : ℤ) : ℚ)
        else t.pos.y + ((overlap_bottom + 1 : ℤ) : ℚ)
      { t with pos := ⟨t.pos.x, py⟩, velocity := ⟨t.velocity.x, 0⟩ }
  else t

/-- `Tank.update`: jam timer, friction, Euler integration, acceleration
reset, bounds clamp, wall-collision loop, cooldown tick.  The friction
force `normalize(v) * (-friction) * |v|` equals `(-friction) • v` exactly,
and the gate `velocity.length() > 0.5` is expressed as the equivalent
squared comparison, keeping the model rational. -/
def Tank.update (t : Tank) (dt : ℚ) (walls : List Wall) : Tank :=
  let t := if t.jam_timer > 0 then
      let jt := t.jam_timer - dt
      { t with jam_timer := jt, is_jammed := jt > 0 }
    else t
  let t := if t.velocity.x ^ 2 + t.velocity.y ^ 2 > (1/2) ^ 2 then
      { t with acceleration := t.acceleration + (-t.friction) • t.velocity }
    else t
  let t := { t with velocity := t.velocity + dt • t.acceleration }
  let t := { t with pos := t.pos + dt • t.velocity }
  let t := { t with acceleration := (0 : Vec2) }
  let t := { t with pos := ⟨clamp t.pos.x (TANK_SIZE : ℚ) ((SCREEN_WIDTH - TANK_SIZE : ℤ) : ℚ),
                            clamp t.pos.y (TANK_SIZE : ℚ) ((SCREEN_HEIGHT - TANK_SIZE : ℤ) : ℚ)⟩ }
  let t := walls.foldl Tank.resolveWall t
  if t.shoot_cooldown > 0 then { t with shoot_cooldown := t.shoot_cooldown - dt } else t

-- ===========================================================================
-- Coin
-- ===========================================================================

/-- `Coin` from `main.py` (pulse animation dropped: rendering only). -/
structure Coin where
  x : ℚ
  y : ℚ
  collected : Bool
deriving Repr, DecidableEq

/-- `Coin.get_rect` (`COIN_SIZE // 2 = 10`). -/
def Coin.get_rect (c : Coin) : Rect :=
  { left := ratTrunc (c.x - ((COIN_SIZE / 2 : ℤ) : ℚ))
    top := ratTrunc (c.y - ((COIN_SIZE / 2 : ℤ) : ℚ))
    w := COIN_SIZE
    h := COIN_SIZE }

-- ===========================================================================
-- Zone (shrinking boundary, mode 2)
-- ===========================================================================

/-- `lerp` from `main.py`. -/
def lerp (a b t : ℚ) : ℚ := a + (b - a) * t

/-- `Zone` from `main.py`. -/
structure Zone where
  margin : ℚ
  shrink_timer : ℚ
  target_margin : ℚ
deriving Repr, DecidableEq

def Zone.init : Zone := { margin := 0, shrink_timer := 0, target_margin := 0 }

/-- `Zone.update`. -/
def Zone.update (z : Zone) (dt : ℚ) : Zone :=
  let z := { z with shrink_timer := z.shrink_timer + dt }
  let z := if z.shrink_timer ≥ LABYRINTH_ZONE_SHRINK_INTERVAL then
      { z with shrink_timer := 0, target_margin := z.target_margin + GRID_CELL_SIZE }
    else z
  if z.margin < z.target_margin then
    { z with margin := lerp z.margin z.target_margin (2/100) }
  else z

/-- `Zone.is_in_danger`. -/
def Zone.is_in_danger (z : Zone) (x y : ℚ) : Bool :=
  decide (x < z.margin ∨ x > (SCREEN_WIDTH : ℚ) - z.margin ∨
          y < z.margin ∨ y > (SCREEN_HEIGHT : ℚ) - z.margin)

-- ===========================================================================
-- DangerZone (orbital strike, mode 2)
-- ===========================================================================

namespace DangerZone

/-- `DangerZone.PHASE_WARNING`. -/
def PHASE_WARNING : ℕ := 0
/-- `DangerZone.PHASE_ACTIVE`. -/
def PHASE_ACTIVE : ℕ := 1
/-- `DangerZone.PHASE_DEAD`. -/
def PHASE_DEAD : ℕ := 2

end DangerZone

/-- `DangerZone` from `main.py` (pulse/surface fields dropped: rendering
only; `_spawn_blast` emits only particles and sound, so the blast-timer
reset is kept and the blast itself is not modelled). -/
structure DangerZone where
  x : ℚ
  y : ℚ
  radius : ℚ
  phase : ℕ
  timer : ℚ
  blast_timer : ℚ
deriving Repr, DecidableEq

/-- `DangerZone.__init__`. -/
def DangerZone.init (x y : ℚ) : DangerZone :=
  { x := x, y := y, radius := DANGER_ZONE_RADIUS
    phase := DangerZone.PHASE_WARNING, timer := 0, blast_timer := 0 }

/-- `DangerZone.update`: returns the new zone and the boolean the source
returns (`false` when the zone is to be removed). -/
def DangerZone.update (dz : DangerZone) (dt : ℚ) : DangerZone × Bool :=
  let dz := { dz with timer := dz.timer + dt }
  if dz.phase = DangerZone.PHASE_WARNING then
    if dz.timer ≥ DANGER_ZONE_WARNING_DURATION then
      ({ dz with phase := DangerZone.PHASE_ACTIVE, timer := 0, blast_timer := 0 }, true)
    else (dz, true)
  else if dz.phase = DangerZone.PHASE_ACTIVE then
    let dz := { dz with blast_timer := dz.blast_timer + dt }
    let dz := if dz.blast_timer ≥ DANGER_ZONE_BLAST_INTERVAL then
        { dz with blast_timer := 0 } else dz
    if dz.timer ≥ DANGER_ZONE_ACTIVE_DURATION then
      ({ dz with phase := DangerZone.PHASE_DEAD }, false)
    else (dz, true)
  else (dz, true)

/-- `DangerZone.check_hit`: the source compares `distance < radius`; both
sides are nonnegative, so the equivalent squared comparison keeps the model
rational. -/
def DangerZone.check_hit (dz : DangerZone) (t : Tank) : Bool :=
  if dz.phase ≠ DangerZone.PHASE_ACTIVE then false
  else decide ((t.pos.x - dz.x) ^ 2 + (t.pos.y - dz.y) ^ 2 < dz.radius ^ 2)

/-- `DangerZone.apply_damage`.  `dir` is the oracle value of
`(cos, sin)` of `angle_to(zone center, tank position)`. -/
def DangerZone.apply_damage (dz : DangerZone) (t : Tank) (dir : Vec2) : Tank :=
  if dz.check_hit t then
    (t.take_damage DANGER_ZONE_DAMAGE).apply_knockback dir DANGER_ZONE_KNOCKBACK
  else t

-- ===========================================================================
-- Juggernaut (boss, mode 3)
-- ===========================================================================

namespace Juggernaut

/-- `Juggernaut.PHASE_IDLE`. -/
def PHASE_IDLE : ℕ := 0
/-- `Juggernaut.PHASE_CHARGE`. -/
def PHASE_CHARGE : ℕ := 1
/-- `Juggernaut.PHASE_BURST`. -/
def PHASE_BURST : ℕ := 2

end Juggernaut

/-- `Juggernaut` from `main.py` (rotation and pre-rendered surfaces
dropped: rendering only).  `all_targets` is the alive-tank snapshot taken
at the start of `update`, exactly as the source stores it. -/
structure Juggernaut where
  x : ℚ
  y : ℚ
  radius : ℚ
  vel : Vec2
  weapon_phase : ℕ
  weapon_timer : ℚ
  burst_count : ℕ
  burst_cooldown : ℚ
  target_angle : ℚ
  all_targets : List Tank
deriving Repr, DecidableEq

/-- `Juggernaut.__init__` (`JUGGERNAUT_SIZE // 2 = 60`). -/
def Juggernaut.init (x y : ℚ) : Juggernaut :=
  { x := x, y := y, radius := ((JUGGERNAUT_SIZE / 2 : ℤ) : ℚ)
    vel := 0
    weapon_phase := Juggernaut.PHASE_IDLE, weapon_timer := 0
    burst_count := 0, burst_cooldown := 0
    target_angle := 0, all_targets := [] }

/-- `Juggernaut.find_nearest_target`: nearest alive tank, earlier tank kept
on ties; the source compares square-root distances, which orders exactly as
the squared distances used here. -/
def Juggernaut.find_nearest_target (j : Juggernaut) (tanks : List Tank) : Option Tank :=
  tanks.foldl
    (fun best t =>
      if t.alive then
        match best with
        | none => some t
        | some b =>
            if (t.pos.x - j.x) ^ 2 + (t.pos.y - j.y) ^ 2 <
               (b.pos.x - j.x) ^ 2 + (b.pos.y - j.y) ^ 2
            then some t else best
      else best)
    none

/-- One boss bullet of `Juggernaut._fire_omni_burst`: the bullet is built
by `Bullet.__init__` (with its random critical draw `crit`) and its
velocity, damage and critical flag are then overridden with the
Juggernaut's heavy stats.  `dir` is the oracle value of `(cos, sin)` of the
angle from the boss to the target. -/
def Juggernaut.burstBullet (j : Juggernaut) (dir : Vec2) (crit : Bool) : Bullet :=
  let bx := j.x + dir.x * (j.radius + 10)
  let bY := j.y + dir.y * (j.radius + 10)
  let bullet := Bullet.init bx bY dir (-1) crit
  { bullet with
    vx := dir.x * JUGGERNAUT_BULLET_SPEED
    vy := dir.y * JUGGERNAUT_BULLET_SPEED
    damage := JUGGERNAUT_BULLET_DAMAGE
    is_critical := false }

/-- `Juggernaut._fire_omni_burst`: one bullet per stored alive target,
appended to the bullet list.  `aimDir i` is the `(cos, sin)` oracle for the
angle from the boss to the `i`-th target; `aimCrit i` the critical draw the
`i`-th bullet's constructor consumes. -/
def Juggernaut.fire_omni_burst (j : Juggernaut) (bullets : List Bullet)
    (aimDir : ℕ → Vec2) (aimCrit : ℕ → Bool) : List Bullet :=
  if j.all_targets.isEmpty then bullets
  else
    bullets ++ (List.range j.all_targets.length).map
      (fun i => j.burstBullet (aimDir i) (aimCrit i))

/-- `Juggernaut._update_weapon`: the Idle → Charge → Burst → Idle state
machine, returning the new boss state and the bullet list with any burst
pulse appended. -/
def Juggernaut.update_weapon (j : Juggernaut) (dt : ℚ) (bullets : List Bullet)
    (aimDir : ℕ → Vec2) (aimCrit : ℕ → Bool) : Juggernaut × List Bullet :=
  let j := { j with weapon_timer := j.weapon_timer + dt }
  if j.weapon_phase = Juggernaut.PHASE_IDLE then
    if j.weapon_timer ≥ JUGGERNAUT_IDLE_TIME then
      ({ j with weapon_phase := Juggernaut.PHASE_CHARGE, weapon_timer := 0 }, bullets)
    else (j, bullets)
  else if j.weapon_phase = Juggernaut.PHASE_CHARGE then
    if j.weapon_timer ≥ JUGGERNAUT_CHARGE_TIME then
      ({ j with weapon_phase := Juggernaut.PHASE_BURST, weapon_timer := 0
                burst_count := 0, burst_cooldown := 0 }, bullets)
    else (j, bullets)
  else if j.weapon_phase = Juggernaut.PHASE_BURST then
    let j := { j with burst_cooldown := j.burst_cooldown - dt }
    let fired := j.burst_cooldown ≤ 0 ∧ j.burst_count < JUGGERNAUT_BURST_COUNT
    let bullets := if fired then j.fire_omni_burst bullets aimDir aimCrit else bullets
    let j := if fired then
        { j with burst_count := j.burst_count + 1
                 burst_cooldown := JUGGERNAUT_BURST_INTERVAL }
      else j
    if j.burst_count ≥ JUGGERNAUT_BURST_COUNT then
      ({ j with weapon_phase := Juggernaut.PHASE_IDLE, weapon_timer := 0 }, bullets)
    else (j, bullets)
  else (j, bullets)

/-- `Juggernaut.update`: snapshot alive targets, creep toward the nearest
alive tank, clamp to bounds, then run the weapon state machine.
`moveDist` is the oracle value of `max(sqrt(dx*dx + dy*dy), 1)` and
`moveAngle` of `degrees(atan2(dy, dx))` for the nearest target. -/
def Juggernaut.update (j : Juggernaut) (dt : ℚ) (tanks : List Tank)
    (bullets : List Bullet) (moveDist moveAngle : ℚ)
    (aimDir : ℕ → Vec2) (aimCrit : ℕ → Bool) : Juggernaut × List Bullet :=
  let j := { j with all_targets := tanks.filter (fun t => t.alive) }
  let j :=
    match j.find_nearest_target tanks with
    | some target =>
        let dx := target.pos.x - j.x
        let dy := target.pos.y - j.y
        let vel : Vec2 := ⟨dx / moveDist * JUGGERNAUT_SPEED * dt,
                           dy / moveDist * JUGGERNAUT_SPEED * dt⟩
        { j with vel := vel, x := j.x + vel.x, y := j.y + vel.y
                 target_angle := moveAngle }
    | none => j
  let j := { j with x := max j.radius (min ((SCREEN_WIDTH : ℚ) - j.radius) j.x)
                    y := max j.radius (min ((SCREEN_HEIGHT : ℚ) - j.radius) j.y) }
  j.update_weapon dt bullets aimDir aimCrit

/-- `Juggernaut.check_melee` (squared form of `distance < radius +
TANK_SIZE // 2`, both sides nonnegative). -/
def Juggernaut.check_melee (j : Juggernaut) (t : Tank) : Bool :=
  decide ((t.pos.x - j.x) ^ 2 + (t.pos.y - j.y) ^ 2 <
          (j.radius + ((TANK_SIZE / 2 : ℤ) : ℚ)) ^ 2)

/-- `Juggernaut.apply_melee_damage`.  `dir` is the `(cos, sin)` oracle for
`angle_to(boss, tank)`. -/
def Juggernaut.apply_melee_damage (j : Juggernaut) (t : Tank) (dir : Vec2) : Tank :=
  if j.check_melee t then
    (t.take_damage JUGGERNAUT_MELEE_DAMAGE).apply_knockback dir JUGGERNAUT_MELEE_KNOCKBACK
  else t

-- ===========================================================================
-- BotLoader (decision sandbox)
-- ===========================================================================

/-- Shape of the parameter object a bot returns, as far as
`process_bot_action` distinguishes it.  `movePair` is a pair whose parts
convert to floats, `number` a value `float()` accepts, `both` a 2-tuple
`(move_dir, shoot_angle)`, `pyNone` is Python `None`, and `malformed` any
other object (its use raises inside the `try` and is swallowed). -/
inductive BotParamV where
  | movePair (dx dy : ℚ)
  | number (q : ℚ)
  | both (dir : Option (ℚ × ℚ)) (ang : Option ℚ)
  | pyNone
  | malformed
deriving Repr, DecidableEq

/-- One invocation of a bot's `update` function: it either raises, or
returns after `elapsed_ms` wall-clock milliseconds.  A returned value is
either a 2-tuple `(action, param)` or some other object. -/
inductive BotCall where
  | raises
  | returns (elapsed_ms : ℚ) (isPair : Bool) (action : String) (param : BotParamV)
deriving Repr, DecidableEq

/-- `BotLoader.execute`: no usable `update` function or an exception gives
`(None, None)`; a measured time above `BOT_TIMEOUT_MS` gives
`("LAG", None)` discarding the result; a well-shaped pair with a known
action name is passed through; anything else gives `(None, None)`. -/
def BotLoader.execute (hasFunc : Bool) (call : BotCall) :
    Option String × Option BotParamV :=
  if !hasFunc then (none, none)
  else
    match call with
    | .raises => (none, none)
    | .returns elapsed_ms isPair action param =>
        if elapsed_ms > BOT_TIMEOUT_MS then (some "LAG", none)
        else if isPair ∧ (action = "MOVE" ∨ action = "SHOOT" ∨ action = "STOP" ∨
                          action = "MOVE_AND_SHOOT") then
          (some action, some param)
        else (none, none)

-- ===========================================================================
-- GitWarsEngine (simulation loop)
-- ===========================================================================

/-- Per-tank oracle values for one tick: the jam draw and the irrational
intermediates (`sqrt` length, `atan2` angle, `(cos, sin)` of the shot
angle, the bullet constructor's critical draw) consumed by at most one
`move` and one `shoot` call per tank per tick. -/
structure TankOracle where
  jamDraw : Bool
  moveLen : ℚ
  moveAngle : ℚ
  shootDir : Vec2
  critDraw : Bool
deriving Repr

/-- All external inputs of one engine tick: bot sandbox results, random
spawn positions, and `(cos, sin)` / length oracles for the irrational
intermediates, keyed by tank id or list index. -/
structure Oracle where
  hasBot : ℤ → Bool
  hasFunc : ℤ → Bool
  call : ℤ → BotCall
  tankO : ℤ → TankOracle
  hitDir : ℕ → ℤ → Vec2
  coinCandidates : List (ℚ × ℚ)
  dangerZonePos : ℚ × ℚ
  dzDir : ℕ → ℤ → Vec2
  meleeDir : ℤ → Vec2
  jugMoveDist : ℚ
  jugMoveAngle : ℚ
  jugAimDir : ℕ → Vec2
  jugAimCrit : ℕ → Bool

/-- `GitWarsEngine` state (rendering, camera, fonts, particles, kill feed
and sound state dropped).  `deaths` records, in order, the ids passed to
`on_tank_death` — the death events emitted to the out-of-scope
effects layer. -/
structure GameState where
  tanks : List Tank
  bullets : List Bullet
  coins : List Coin
  walls : List Wall
  zone : Zone
  juggernaut : Option Juggernaut
  danger_zones : List DangerZone
  danger_zone_timer : ℚ
  game_mode : ℕ
  game_timer : ℚ
  coin_spawn_timer : ℚ
  game_over : Bool
  deaths : List ℤ

/-- Inner tank loop of the per-bullet collision handling in
`GitWarsEngine.update`: walk the tank list, and at the first alive,
non-owner tank whose rectangle collides, kill the bullet and apply the
mode-dependent effect (mode 1: knockback only; otherwise damage and a
death event if the tank dies), then stop (`break`). -/
def bulletHitTanks (mode : ℕ) (dir : ℤ → Vec2) (b : Bullet) :
    List Tank → Bullet × List Tank × List ℤ
  | [] => (b, [], [])
  | t :: ts =>
    if t.alive ∧ t.id ≠ b.owner_id ∧ b.get_rect.colliderect t.get_rect then
      let b := { b with alive := false }
      if mode = 1 then
        (b, t.apply_knockback (dir t.id) SCRAMBLE_KNOCKBACK :: ts, [])
      else
        let t' := t.take_damage b.damage
        (b, t' :: ts, if t'.alive then [] else [t'.id])
    else
      let (b', ts', ds) := bulletHitTanks mode dir b ts
      (b', t :: ts', ds)

/-- Wall loop of the per-bullet collision handling: the bullet dies if its
rectangle collides with any wall. -/
def bulletHitWalls (b : Bullet) (walls : List Wall) : Bullet :=
  if walls.any (fun w => b.get_rect.colliderect w.get_rect) then
    { b with alive := false }
  else b

/-- Phase 1 of `GitWarsEngine.update`: advance each bullet, collide it
with walls and tanks (tanks mutated in place are seen by later bullets),
accumulating death events.  `i` indexes the bullets for the knockback
direction oracle. -/
def bulletsPhase (mode : ℕ) (hitDir : ℕ → ℤ → Vec2) (walls : List Wall) (i : ℕ) :
    List Bullet → List Tank → List Bullet × List Tank × List ℤ
  | [], tanks => ([], tanks, [])
  | b :: bs, tanks =>
    let b := b.update
    let b := bulletHitWalls b walls
    let (b, tanks, ds) := bulletHitTanks mode (hitDir i) b tanks
    let (bs', tanks', ds') := bulletsPhase mode hitDir walls (i + 1) bs tanks
    (b :: bs', tanks', ds ++ ds')

/-- `GitWarsEngine.process_bot_action`: dispatch a validated action to the
tank, producing an optionally spawned bullet.  Parameter shapes the source
rejects inside its `try`/`except` blocks are no-ops. -/
def process_bot_action (t : Tank) (o : TankOracle) (action : String)
    (param : Option BotParamV) : Tank × Option Bullet :=
  if action = "MOVE" then
    match param with
    | some (.movePair dx dy) => (t.move dx dy o.jamDraw o.moveLen o.moveAngle, none)
    | _ => (t, none)
  else if action = "SHOOT" then
    match param with
    | some (.number _) => t.shoot o.shootDir o.critDraw
    | _ => (t, none)
  else if action = "STOP" then
    ({ t with velocity := 0 }, none)
  else if action = "MOVE_AND_SHOOT" then
    match param with
    | some (.both dirp angp) =>
        let t := match dirp with
          | some (dx, dy) => t.move dx dy o.jamDraw o.moveLen o.moveAngle
          | none => t
        match angp with
        | some _ => t.shoot o.shootDir o.critDraw
        | none => (t, none)
    | _ => (t, none)
  else (t, none)

/-- Gate of the decision phase in `GitWarsEngine.update`: a tank's sandbox
is invoked exactly when the tank is alive and has a loaded bot. -/
def decisionGate (o : Oracle) (t : Tank) : Bool :=
  t.alive && o.hasBot t.id

/-- Phase 2 of `GitWarsEngine.update`, for one tank: invoke the sandbox if
the gate holds, record `last_action`, and process the action unless it is
`None` or `"LAG"`. -/
def decisionStep (o : Oracle) (t : Tank) : Tank × Option Bullet :=
  if decisionGate o t then
    let (action, param) := BotLoader.execute (o.hasFunc t.id) (o.call t.id)
    let t := { t with last_action := action }
    match action with
    | some a => if a ≠ "LAG" then process_bot_action t (o.tankO t.id) a param
                else (t, none)
    | none => (t, none)
  else (t, none)

/-- Phase 2 over the tank list, appending spawned bullets to the bullet
list in tank order. -/
def decisionsPhase (o : Oracle) : List Tank → List Tank × List Bullet
  | [] => ([], [])
  | t :: ts =>
    let (t', b) := decisionStep o t
    let (ts', bs) := decisionsPhase o ts
    (t' :: ts', (match b with | some bl => [bl] | none => []) ++ bs)

/-- Phase 3 of `GitWarsEngine.update`, for one tank: integrate physics for
alive tanks and, in mode 2, apply shrinking-zone damage with a death event
if the tank dies. -/
def physicsStep (mode : ℕ) (zone : Zone) (dt : ℚ) (walls : List Wall)
    (t : Tank) : Tank × List ℤ :=
  if t.alive then
    let t := t.update dt walls
    if mode = 2 ∧ zone.is_in_danger t.pos.x t.pos.y then
      let t := t.take_damage (LABYRINTH_ZONE_DAMAGE * dt)
      (t, if t.alive then [] else [t.id])
    else (t, [])
  else (t, [])

/-- Phase 3 over the tank list. -/
def physicsPhase (mode : ℕ) (zone : Zone) (dt : ℚ) (walls : List Wall) :
    List Tank → List Tank × List ℤ
  | [] => ([], [])
  | t :: ts =>
    let (t', ds) := physicsStep mode zone dt walls t
    let (ts', ds') := physicsPhase mode zone dt walls ts
    (t' :: ts', ds ++ ds')

/-- `GitWarsEngine.spawn_coin`: up to 10 random positions are tried; the
first one at distance ≥ `TANK_SIZE * 2` from every tank is used (squared
comparison for the rational model); if the cap is reached or no candidate
is valid, no coin spawns. -/
def spawn_coin (tanks : List Tank) (coins : List Coin)
    (candidates : List (ℚ × ℚ)) : List Coin :=
  if coins.length ≥ SCRAMBLE_MAX_COINS then coins
  else
    match (candidates.take 10).find? (fun c =>
        tanks.all (fun t =>
          ¬((c.1 - t.pos.x) ^ 2 + (c.2 - t.pos.y) ^ 2 < ((TANK_SIZE * 2 : ℤ) : ℚ) ^ 2))) with
    | some c => coins ++ [⟨c.1, c.2, false⟩]
    | none => coins

/-- `GitWarsEngine.spawn_danger_zone`: the zone is appended at the random
position unconditionally — there is no tank-proximity check. -/
def spawn_danger_zone (zones : List DangerZone) (pos : ℚ × ℚ) : List DangerZone :=
  zones ++ [DangerZone.init pos.1 pos.2]

/-- Inner tank loop of the danger-zone update (mode 2): apply one zone's
damage to every alive tank, in tank order, with a death event for each tank
that dies. -/
def dzApplyAll (dz : DangerZone) (dir : ℤ → Vec2) : List Tank → List Tank × List ℤ
  | [] => ([], [])
  | t :: ts =>
    let (ts', ds') := dzApplyAll dz dir ts
    if t.alive then
      let t' := dz.apply_damage t (dir t.id)
      (t' :: ts', (if t'.alive then [] else [t'.id]) ++ ds')
    else (t :: ts', ds')

/-- Danger-zone loop of `GitWarsEngine.update` (mode 2): update each zone,
drop it when `update` returns false, otherwise apply its damage to every
alive tank, accumulating death events.  `zi` indexes zones for the
knockback direction oracle. -/
def dangerZonesPhase (dzDir : ℕ → ℤ → Vec2) (dt : ℚ) (zi : ℕ) :
    List DangerZone → List Tank → List DangerZone × List Tank × List ℤ
  | [], tanks => ([], tanks, [])
  | dz :: dzs, tanks =>
    let (dz', keep) := dz.update dt
    if keep then
      let (tanks, ds) := dzApplyAll dz' (dzDir zi) tanks
      let (dzs', tanks', ds') := dangerZonesPhase dzDir dt (zi + 1) dzs tanks
      (dz' :: dzs', tanks', ds ++ ds')
    else
      let (dzs', tanks', ds') := dangerZonesPhase dzDir dt (zi + 1) dzs tanks
      (dzs', tanks', ds')

/-- Melee loop of `GitWarsEngine.update` (mode 3): contact damage and
knockback from the boss to every alive tank, with death events. -/
def meleePhase (j : Juggernaut) (meleeDir : ℤ → Vec2) :
    List Tank → List Tank × List ℤ
  | [] => ([], [])
  | t :: ts =>
    let (ts', ds') := meleePhase j meleeDir ts
    if t.alive then
      let t' := j.apply_melee_damage t (meleeDir t.id)
      (t' :: ts', (if t'.alive then [] else [t'.id]) ++ ds')
    else (t :: ts', ds')

/-- Inner tank loop of the coin-collection check (mode 1): the first alive
tank whose rectangle overlaps the coin collects it and gains
`COIN_VALUE`. -/
def coinPick (c : Coin) : List Tank → Bool × List Tank
  | [] => (false, [])
  | t :: ts =>
    if t.alive ∧ c.get_rect.colliderect t.get_rect then
      (true, { t with coins := t.coins + COIN_VALUE } :: ts)
    else
      let (got, ts') := coinPick c ts
      (got, t :: ts')

/-- Coin-collection loop of `GitWarsEngine.update` (mode 1): each
uncollected coin is collected by the first alive tank whose rectangle
overlaps it; collected coins are then removed. -/
def coinPickup : List Coin → List Tank → List Coin × List Tank
  | [], tanks => ([], tanks)
  | c :: cs, tanks =>
    if c.collected then
      let (cs', tanks') := coinPickup cs tanks
      (cs', tanks')
    else
      let (got, tanks) := coinPick c tanks
      let (cs', tanks') := coinPickup cs tanks
      (if got then cs' else c :: cs', tanks')

/-- Mode-1 timer block of `GitWarsEngine.update`: countdown, coin spawn
timer, and `end_scramble` when the timer runs out. -/
def GameState.mode1Timers (s1 : GameState) (dt : ℚ) (o : Oracle) : GameState :=
  let game_timer := s1.game_timer - dt
  let cst := s1.coin_spawn_timer + dt
  let (cst, coins) :=
    if cst ≥ SCRAMBLE_COIN_SPAWN_INTERVAL then
      ((0 : ℚ), spawn_coin s1.tanks s1.coins o.coinCandidates)
    else (cst, s1.coins)
  { s1 with game_timer := game_timer, coin_spawn_timer := cst, coins := coins
            game_over := s1.game_over || decide (game_timer ≤ 0) }

/-- Mode-2 timer block of `GitWarsEngine.update`: shrinking zone, danger
zone spawning and updates, and `end_labyrinth` at the survivor
threshold. -/
def GameState.mode2Timers (s1 : GameState) (dt : ℚ) (o : Oracle) : GameState :=
  let zone := s1.zone.update dt
  let dzt := s1.danger_zone_timer + dt
  let (dzt, dzs) :=
    if dzt ≥ DANGER_ZONE_SPAWN_INTERVAL then
      ((0 : ℚ), spawn_danger_zone s1.danger_zones o.dangerZonePos)
    else (dzt, s1.danger_zones)
  let (dzs, tanks, ds3) := dangerZonesPhase o.dzDir dt 0 dzs s1.tanks
  let alive_count := (tanks.filter (fun t => t.alive)).length
  { s1 with zone := zone, danger_zone_timer := dzt, danger_zones := dzs
            tanks := tanks, deaths := s1.deaths ++ ds3
            game_over := s1.game_over || decide (alive_count ≤ LABYRINTH_FINAL_SURVIVORS) }

/-- Mode-3 block of `GitWarsEngine.update`: boss movement/weapon update and
melee contact damage. -/
def GameState.mode3Timers (s1 : GameState) (dt : ℚ) (o : Oracle) : GameState :=
  match s1.juggernaut with
  | some j =>
      let (j, bullets) := j.update dt s1.tanks s1.bullets
                            o.jugMoveDist o.jugMoveAngle o.jugAimDir o.jugAimCrit
      let (tanks, ds3) := meleePhase j o.meleeDir s1.tanks
      { s1 with juggernaut := some j, bullets := bullets
                tanks := tanks, deaths := s1.deaths ++ ds3 }
  | none => s1

/-- Phases 1–3 of `GitWarsEngine.update`: advance and collide bullets,
run every alive tank's sandbox, then integrate physics, collecting death
events. -/
def GameState.tickMain (s : GameState) (dt : ℚ) (o : Oracle) : GameState :=
  let (bullets, tanks, ds1) := bulletsPhase s.game_mode o.hitDir s.walls 0 s.bullets s.tanks
  let bullets := bullets.filter (fun b => b.alive)
  let (tanks, newBullets) := decisionsPhase o tanks
  let bullets := bullets ++ newBullets
  let (tanks, ds2) := physicsPhase s.game_mode s.zone dt s.walls tanks
  { s with tanks := tanks, bullets := bullets, deaths := s.deaths ++ ds1 ++ ds2 }

/-- Coin-pickup block of `GitWarsEngine.update` (mode 1). -/
def GameState.coinPhase (s2 : GameState) : GameState :=
  let (coins, tanks) := coinPickup s2.coins s2.tanks
  { s2 with coins := coins, tanks := tanks }

/-- Mode-3 end-condition check of `GitWarsEngine.update`: the session ends
when at most one tank is alive. -/
def GameState.endCheck3 (s3 : GameState) : GameState :=
  let alive := s3.tanks.filter (fun t => t.alive)
  { s3 with game_over := s3.game_over || decide (alive.length ≤ 1) }

/-- `GitWarsEngine.update`: one tick.  Camera, particles, kill-feed fades
and all sound/rendering are dropped; everything that can touch a tank,
bullet, coin, zone or boss is kept, in the source's order. -/
def GameState.update (s : GameState) (dt : ℚ) (o : Oracle) : GameState :=
  if s.game_over then s
  else
    let s1 := s.tickMain dt o
    let s2 :=
      if s1.game_mode = 1 then s1.mode1Timers dt o
      else if s1.game_mode = 2 then s1.mode2Timers dt o
      else if s1.game_mode = 3 then s1.mode3Timers dt o
      else s1
    let s3 := if s2.game_mode = 1 then s2.coinPhase else s2
    if s3.game_mode = 3 then s3.endCheck3 else s3

/-- A session run: iterate `GitWarsEngine.update` over a list of per-tick
timesteps and oracles. -/
def runTicks (s : GameState) (steps : List (ℚ × Oracle)) : GameState :=
  steps.foldl (fun st p => st.update p.1 p.2) s

-- ===========================================================================
-- Concrete sample data (used to evaluate the theorems on closed inputs)
-- ===========================================================================

/-- A concrete tick oracle: every bot is loaded, returns a valid MOVE after
150 ms of wall-clock time, and all direction oracles point along the x
axis. -/
def sampleOracle : Oracle :=
  { hasBot := fun _ => true
    hasFunc := fun _ => true
    call := fun _ => BotCall.returns 150 true "MOVE" (BotParamV.movePair 1 0)
    tankO := fun _ => { jamDraw := false, moveLen := 1, moveAngle := 0
                        shootDir := ⟨1, 0⟩, critDraw := false }
    hitDir := fun _ _ => ⟨1, 0⟩
    coinCandidates := [(400, 300)]
    dangerZonePos := (400, 300)
    dzDir := fun _ _ => ⟨1, 0⟩
    meleeDir := fun _ => ⟨1, 0⟩
    jugMoveDist := 1
    jugMoveAngle := 0
    jugAimDir := fun _ => ⟨1, 0⟩
    jugAimCrit := fun _ => false }

/-- A concrete two-tank Scramble (mode 1) session state. -/
def sampleState : GameState :=
  { tanks := [Tank.init 0 100 100, Tank.init 1 500 400]
    bullets := []
    coins := []
    walls := []
    zone := Zone.init
    juggernaut := none
    danger_zones := []
    danger_zone_timer := 0
    game_mode := 1
    game_timer := SCRAMBLE_DURATION
    coin_spawn_timer := 0
    game_over := false
    deaths := [] }

/-- A concrete boss with a single stored target, mid-burst. -/
def sampleJug : Juggernaut :=
  { Juggernaut.init 640 360 with
    weapon_phase := Juggernaut.PHASE_BURST
    burst_count := 0
    burst_cooldown := 0
    all_targets := [Tank.init 0 100 100] }

-- ===========================================================================
-- Safety predicates for the session-wide invariants
-- ===========================================================================

/-- Per-tank safety relation across one engine operation: id and max health
are preserved, a dead tank never revives, health never increases (and stays
nonnegative once nonnegative), and ammo never increases and stays
nonnegative. -/
def Tank.Step (a b : Tank) : Prop :=
  b.id = a.id ∧ b.max_health = a.max_health ∧
  (b.alive = true → a.alive = true) ∧
  (0 ≤ a.health → 0 ≤ b.health ∧ b.health ≤ a.health) ∧
  b.ammo ≤ a.ammo ∧ (0 ≤ a.ammo → 0 ≤ b.ammo)

/-- Health and ammo within `[0, max]` for one tank. -/
def Tank.healthInv (t : Tank) : Prop :=
  0 ≤ t.health ∧ t.health ≤ t.max_health ∧ 0 ≤ t.ammo ∧ t.ammo ≤ TANK_STARTING_AMMO

/-- Session invariant: every tank's health/ammo are in range and every live
bullet carries nonnegative damage. -/
def GameState.Inv (s : GameState) : Prop :=
  (∀ t ∈ s.tanks, t.healthInv) ∧ (∀ b ∈ s.bullets, 0 ≤ b.damage)

/-- Pointwise `Tank.Step` between the tank lists of successive states. -/
def TankListStep (l1 l2 : List Tank) : Prop := List.Forall₂ Tank.Step l1 l2

-- ===========================================================================
-- Unfolding lemmas for the `Vec2` instances
-- ===========================================================================

theorem Vec2.add_def (a b : Vec2) : a + b = ⟨a.x + b.x, a.y + b.y⟩ := rfl

theorem Vec2.smul_def (c : ℚ) (v : Vec2) : c • v = ⟨c * v.x, c * v.y⟩ := rfl

theorem Vec2.zero_def : (0 : Vec2) = ⟨0, 0⟩ := rfl

theorem Vec2.zero_x : (0 : Vec2).x = 0 := rfl

theorem Vec2.zero_y : (0 : Vec2).y = 0 := rfl

-- ===========================================================================
-- Claim C2
-- ===========================================================================

/-- For a tank at rest, one physics update (no walls) turns the
accumulated acceleration into velocity `dt • acceleration`: friction is
gated off below the minimum-speed threshold. -/
theorem Tank.update_velocity_from_rest (u : Tank) (dt : ℚ)
    (hv : u.velocity = (⟨0, 0⟩ : Vec2)) :
    (u.update dt []).velocity = dt • u.acceleration := by
  simp only [Tank.update, List.foldl_nil]
  split <;>
    (norm_num [hv, Vec2.add_def, Vec2.smul_def]; split <;>
      simp [Vec2.add_def, Vec2.smul_def])

/-- C2: a MOVE input with a non-zero direction, processed by a tank that is
not jammed and does not jam on the call, never overwrites velocity: the
normalized direction is added to the acceleration accumulator as a force of
magnitude `TANK_ENGINE_FORCE` divided by the tank's mass; and from rest, a
single movement action followed by one integration step yields velocity
whose components have the same signs as the input. -/
theorem move_adds_force_never_overwrites_velocity
    (t : Tank) (dx dy len newAngle dt : ℚ) (jamDraw : Bool)
    (hjam : t.is_jammed = false) (hdraw : jamDraw = false)
    (hlen : len * len = dx * dx + dy * dy) (hlenpos : 0 < len)
    (hmass : 0 < t.mass) (hdt : 0 < dt) :
    (t.move dx dy jamDraw len newAngle).velocity = t.velocity ∧
    (t.move dx dy jamDraw len newAngle).acceleration =
      t.acceleration + (1 / t.mass) •
        (⟨dx / len * TANK_ENGINE_FORCE, dy / len * TANK_ENGINE_FORCE⟩ : Vec2) ∧
    ((t.move dx dy jamDraw len newAngle).acceleration.x - t.acceleration.x) ^ 2 +
      ((t.move dx dy jamDraw len newAngle).acceleration.y - t.acceleration.y) ^ 2 =
      (TANK_ENGINE_FORCE / t.mass) ^ 2 ∧
    (t.velocity = 0 → t.acceleration = 0 →
      ((0 < dx → 0 < (((t.move dx dy jamDraw len newAngle).update dt []).velocity).x) ∧
       (dx < 0 → (((t.move dx dy jamDraw len newAngle).update dt []).velocity).x < 0) ∧
       (0 < dy → 0 < (((t.move dx dy jamDraw len newAngle).update dt []).velocity).y) ∧
       (dy < 0 → (((t.move dx dy jamDraw len newAngle).update dt []).velocity).y < 0))) := by
  subst hdraw
  have hlen0 : len ≠ 0 := ne_of_gt hlenpos
  have hm0 : t.mass ≠ 0 := ne_of_gt hmass
  have hmove : t.move dx dy false len newAngle =
      { t with
        acceleration := t.acceleration + (1 / t.mass) •
          (⟨dx / len * TANK_ENGINE_FORCE, dy / len * TANK_ENGINE_FORCE⟩ : Vec2)
        angle := newAngle } := by
    simp [Tank.move, hjam, hlenpos]
  refine ⟨by rw [hmove], by rw [hmove], ?_, ?_⟩
  · rw [hmove]
    simp only [Vec2.add_def, Vec2.smul_def]
    field_simp [TANK_ENGINE_FORCE]
    first
    | linear_combination (t.mass ^ 2 * 1440000) * hlen
    | linear_combination (-(t.mass ^ 2) * 1440000) * hlen
  · intro hv ha
    -- after the move, from rest, the update integrates the pure input force
    have hupd : (((t.move dx dy false len newAngle).update dt []).velocity) =
        ⟨dt * (1 / t.mass * (dx / len * TANK_ENGINE_FORCE)),
         dt * (1 / t.mass * (dy / len * TANK_ENGINE_FORCE))⟩ := by
      rw [hmove, Tank.update_velocity_from_rest _ dt (by rw [← Vec2.zero_def]; exact hv)]
      simp [ha, Vec2.add_def, Vec2.smul_def, Vec2.zero_def]
    rw [hupd]
    have hF : (0:ℚ) < TANK_ENGINE_FORCE := by norm_num [TANK_ENGINE_FORCE]
    have hpos : 0 < dt * (1 / t.mass) * (TANK_ENGINE_FORCE / len) := by positivity
    have hx : dt * (1 / t.mass * (dx / len * TANK_ENGINE_FORCE)) =
        dx * (dt * (1 / t.mass) * (TANK_ENGINE_FORCE / len)) := by ring
    have hy : dt * (1 / t.mass * (dy / len * TANK_ENGINE_FORCE)) =
        dy * (dt * (1 / t.mass) * (TANK_ENGINE_FORCE / len)) := by ring
    exact ⟨fun h => by rw [hx]; exact mul_pos h hpos,
           fun h => by rw [hx]; exact mul_neg_of_neg_of_pos h hpos,
           fun h => by rw [hy]; exact mul_pos h hpos,
           fun h => by rw [hy]; exact mul_neg_of_neg_of_pos h hpos⟩

/-- Witness for C2: tank at rest, input (3, 4) with norm 5. -/
theorem move_adds_force_never_overwrites_velocity_witness :
    ((Tank.init 0 100 100).move 3 4 false 5 53).velocity = (Tank.init 0 100 100).velocity := by
  exact (move_adds_force_never_overwrites_velocity (Tank.init 0 100 100) 3 4 5 53 1 false
    rfl rfl (by norm_num) (by norm_num) (by norm_num [Tank.init, TANK_MASS]) (by norm_num)).1

-- ===========================================================================
-- Claim C3
-- ===========================================================================

/-- C3 counterexample: for a freshly initialised tank that fires
successfully, the recoil does NOT change velocity within the call — it is
routed through the acceleration accumulator (via `apply_force`, hence mass
scaling and integration), refuting the claim that recoil is applied as an
impulse directly to velocity, bypassing the accumulator. -/
theorem recoil_is_a_force_not_an_impulse :
    (((Tank.init 0 100 100).shoot ⟨1, 0⟩ false).1).velocity = (Tank.init 0 100 100).velocity ∧
    (((Tank.init 0 100 100).shoot ⟨1, 0⟩ false).1).acceleration ≠
      (Tank.init 0 100 100).acceleration := by
  constructor
  · rfl
  · have hs : (((Tank.init 0 100 100).shoot ⟨1, 0⟩ false).1).acceleration = ⟨-6, 0⟩ := by
      norm_num [Tank.init, Tank.shoot, Tank.apply_force, TANK_STARTING_AMMO, TANK_RECOIL,
        TANK_MASS, Vec2.add_def, Vec2.smul_def, Vec2.zero_def, Vec2.zero_x, Vec2.zero_y,
        Vec2.mk.injEq]
    rw [hs]
    intro habs
    have hx := congrArg Vec2.x habs
    norm_num [Tank.init, Vec2.zero_x] at hx

/-- C3 amended: knockback is an impulse — it adds directly to velocity in
the same call, leaving the acceleration accumulator and position untouched,
for any tank state (hence independent of any concurrently accumulated
movement force); recoil on a successful shot is instead applied as a force:
velocity is unchanged by the `shoot` call and the recoil, divided by the
tank's mass, is added to the acceleration accumulator. -/
theorem knockback_is_impulse_recoil_is_force
    (t : Tank) (dir : Vec2) (force : ℚ) (critDraw : Bool)
    (hjam : t.is_jammed = false) (hammo : 0 < t.ammo) (hcd : t.shoot_cooldown ≤ 0) :
    (t.apply_knockback dir force).velocity =
      t.velocity + (⟨dir.x * force * 15, dir.y * force * 15⟩ : Vec2) ∧
    (t.apply_knockback dir force).acceleration = t.acceleration ∧
    (t.apply_knockback dir force).pos = t.pos ∧
    ((t.shoot dir critDraw).1).velocity = t.velocity ∧
    ((t.shoot dir critDraw).1).acceleration =
      t.acceleration + (1 / t.mass) •
        (⟨-dir.x * TANK_RECOIL * 2, -dir.y * TANK_RECOIL * 2⟩ : Vec2) := by
  have hgate : ¬(t.is_jammed ∨ t.ammo ≤ 0 ∨ t.shoot_cooldown > 0) := by
    simp [hjam, not_le.mpr hammo, not_lt.mpr hcd]
  refine ⟨rfl, rfl, rfl, ?_, ?_⟩ <;>
    simp [Tank.shoot, hgate, Tank.apply_force]

/-- Witness for the amended C3 at a fresh tank. -/
theorem knockback_is_impulse_recoil_is_force_witness :
    ((Tank.init 0 100 100).apply_knockback ⟨0, 1⟩ 20).velocity =
      (Tank.init 0 100 100).velocity + (⟨0 * 20 * 15, 1 * 20 * 15⟩ : Vec2) := by
  exact (knockback_is_impulse_recoil_is_force (Tank.init 0 100 100) ⟨0, 1⟩ 20 false
    rfl (by norm_num [Tank.init, TANK_STARTING_AMMO]) (by norm_num [Tank.init])).1

-- ===========================================================================
-- Claim C4
-- ===========================================================================

/-- C4: when a tank overlaps a static wall, the resolver pushes it out only
along the axis of minimum overlap and zeroes the velocity on that axis
only, keeping the orthogonal position and velocity component (sliding);
and the collision loop re-tests the updated tank against each further
wall. -/
theorem wall_collision_resolves_minimum_axis_only
    (t : Tank) (w : Wall)
    (hc : t.get_rect.colliderect w.get_rect = true) :
    (min (t.get_rect.right - w.get_rect.left) (w.get_rect.right - t.get_rect.left) <
       min (t.get_rect.bottom - w.get_rect.top) (w.get_rect.bottom - t.get_rect.top) →
     (t.resolveWall w).velocity.x = 0 ∧
     (t.resolveWall w).velocity.y = t.velocity.y ∧
     (t.resolveWall w).pos.y = t.pos.y ∧
     (t.resolveWall w).pos.x ≠ t.pos.x) ∧
    (¬(min (t.get_rect.right - w.get_rect.left) (w.get_rect.right - t.get_rect.left) <
       min (t.get_rect.bottom - w.get_rect.top) (w.get_rect.bottom - t.get_rect.top)) →
     (t.resolveWall w).velocity.y = 0 ∧
     (t.resolveWall w).velocity.x = t.velocity.x ∧
     (t.resolveWall w).pos.x = t.pos.x ∧
     (t.resolveWall w).pos.y ≠ t.pos.y) ∧
    (∀ ws : List Wall, List.foldl Tank.resolveWall t (w :: ws) =
       List.foldl Tank.resolveWall (t.resolveWall w) ws) := by
  have hprops : t.get_rect.left < w.get_rect.right ∧ t.get_rect.right > w.get_rect.left ∧
      t.get_rect.top < w.get_rect.bottom ∧ t.get_rect.bottom > w.get_rect.top := by
    simpa [Rect.colliderect] using hc
  obtain ⟨h1, h2, h3, h4⟩ := hprops
  have holεx : (0:ℤ) < t.get_rect.right - w.get_rect.left := by omega
  have holεx' : (0:ℤ) < w.get_rect.right - t.get_rect.left := by omega
  have holεy : (0:ℤ) < t.get_rect.bottom - w.get_rect.top := by omega
  have holεy' : (0:ℤ) < w.get_rect.bottom - t.get_rect.top := by omega
  refine ⟨fun hmin => ?_, fun hmin => ?_, fun ws => rfl⟩
  · rw [Tank.resolveWall]
    simp only [hc, if_true, if_pos hmin]
    split
    · refine ⟨by trivial, by trivial, by trivial, ?_⟩
      have hne : ((t.get_rect.right - w.get_rect.left + 1 : ℤ) : ℚ) ≠ 0 := by
        exact_mod_cast (by omega : (t.get_rect.right - w.get_rect.left + 1 : ℤ) ≠ 0)
      intro habs
      apply hne
      linarith [habs]
    · refine ⟨by trivial, by trivial, by trivial, ?_⟩
      have hne : ((w.get_rect.right - t.get_rect.left + 1 : ℤ) : ℚ) ≠ 0 := by
        exact_mod_cast (by omega : (w.get_rect.right - t.get_rect.left + 1 : ℤ) ≠ 0)
      intro habs
      apply hne
      linarith [habs]
  · rw [Tank.resolveWall]
    simp only [hc, if_true, if_neg hmin]
    split
    · refine ⟨by trivial, by trivial, by trivial, ?_⟩
      have hne : ((t.get_rect.bottom - w.get_rect.top + 1 : ℤ) : ℚ) ≠ 0 := by
        exact_mod_cast (by omega : (t.get_rect.bottom - w.get_rect.top + 1 : ℤ) ≠ 0)
      intro habs
      apply hne
      linarith [habs]
    · refine ⟨by trivial, by trivial, by trivial, ?_⟩
      have hne : ((w.get_rect.bottom - t.get_rect.top + 1 : ℤ) : ℚ) ≠ 0 := by
        exact_mod_cast (by omega : (w.get_rect.bottom - t.get_rect.top + 1 : ℤ) ≠ 0)
      intro habs
      apply hne
      linarith [habs]

/-- Witness for C4: a tank at (100, 100) overlapping a wall at (110, 60) of
size 200 × 200 is resolved horizontally (overlap 10 < 60), keeping the
vertical velocity component. -/
theorem wall_collision_resolves_minimum_axis_only_witness :
    (({ Tank.init 0 100 100 with velocity := ⟨3, 7⟩ }).resolveWall
       ⟨110, 60, 200, 200⟩).velocity.x = 0 ∧
    (({ Tank.init 0 100 100 with velocity := ⟨3, 7⟩ }).resolveWall
       ⟨110, 60, 200, 200⟩).velocity.y = 7 := by
  have h := wall_collision_resolves_minimum_axis_only
    ({ Tank.init 0 100 100 with velocity := ⟨3, 7⟩ }) ⟨110, 60, 200, 200⟩
    (by norm_num [Rect.colliderect, Tank.get_rect, Wall.get_rect, Rect.right, Rect.bottom,
      ratTrunc, Tank.init, TANK_SIZE])
  obtain ⟨hx, -, -⟩ := h
  have hmin := hx (by norm_num [Tank.get_rect, Wall.get_rect, Rect.right, Rect.bottom,
      ratTrunc, Tank.init, TANK_SIZE, min_def])
  exact ⟨hmin.1, hmin.2.1⟩

-- ===========================================================================
-- Claim C10
-- ===========================================================================

/-- C10: every projectile the boss's burst cannon creates has its critical
flag forced to `false` and carries damage exactly `JUGGERNAUT_BULLET_DAMAGE`
and speed exactly `JUGGERNAUT_BULLET_SPEED`, regardless of the critical draw
performed by the `Bullet` constructor. -/
theorem boss_burst_bullets_never_critical
    (j : Juggernaut) (bullets : List Bullet) (aimDir : ℕ → Vec2) (aimCrit : ℕ → Bool)
    (hdir : ∀ i, (aimDir i).x ^ 2 + (aimDir i).y ^ 2 = 1) :
    ∀ b ∈ j.fire_omni_burst bullets aimDir aimCrit,
      b ∈ bullets ∨
      (b.is_critical = false ∧ b.damage = JUGGERNAUT_BULLET_DAMAGE ∧
       b.vx ^ 2 + b.vy ^ 2 = JUGGERNAUT_BULLET_SPEED ^ 2) := by
  intro b hb
  unfold Juggernaut.fire_omni_burst at hb
  split at hb
  · exact Or.inl hb
  · rcases List.mem_append.mp hb with h | h
    · exact Or.inl h
    · right
      rcases List.mem_map.mp h with ⟨i, hi, rfl⟩
      refine ⟨rfl, rfl, ?_⟩
      show ((aimDir i).x * JUGGERNAUT_BULLET_SPEED) ^ 2 +
          ((aimDir i).y * JUGGERNAUT_BULLET_SPEED) ^ 2 = JUGGERNAUT_BULLET_SPEED ^ 2
      linear_combination JUGGERNAUT_BULLET_SPEED ^ 2 * hdir i

/-- Witness for C10: the single burst bullet of `sampleJug`, fired along
the 3-4-5 direction with the constructor's critical draw forced to `true`,
still comes out non-critical. -/
theorem boss_burst_bullets_never_critical_witness :
    (sampleJug.burstBullet ⟨3/5, 4/5⟩ true).is_critical = false ∧
    (sampleJug.burstBullet ⟨3/5, 4/5⟩ true).damage = JUGGERNAUT_BULLET_DAMAGE := by
  have h := boss_burst_bullets_never_critical sampleJug []
      (fun _ => ⟨3/5, 4/5⟩) (fun _ => true) (by intro i; norm_num)
      (sampleJug.burstBullet ⟨3/5, 4/5⟩ true)
      (by simp [Juggernaut.fire_omni_burst, sampleJug, Juggernaut.init, List.range_succ])
  rcases h with h | h
  · exact absurd h (List.not_mem_nil _)
  · exact ⟨h.1, h.2.1⟩

-- ===========================================================================
-- Claim C9
-- ===========================================================================

/-- C9 counterexample: a hazard zone in its Active phase that crosses the
active-duration threshold transitions to Dead with its phase timer NOT
reset to zero — refuting "the phase timer is reset to zero on every
transition". -/
theorem hazard_active_to_dead_does_not_reset_timer :
    (((⟨100, 100, DANGER_ZONE_RADIUS, DangerZone.PHASE_ACTIVE, 5, 0⟩ : DangerZone).update
        (1/60)).1.phase = DangerZone.PHASE_DEAD) ∧
    (((⟨100, 100, DANGER_ZONE_RADIUS, DangerZone.PHASE_ACTIVE, 5, 0⟩ : DangerZone).update
        (1/60)).1.timer ≠ 0) := by
  norm_num [DangerZone.update, DangerZone.PHASE_WARNING, DangerZone.PHASE_ACTIVE,
    DangerZone.PHASE_DEAD, DANGER_ZONE_WARNING_DURATION, DANGER_ZONE_ACTIVE_DURATION,
    DANGER_ZONE_BLAST_INTERVAL]

/-- C9 amended: for both the hazard-zone cycle and the boss weapon cycle,
phase transitions are driven purely by each machine's own elapsed-time
thresholds and (for Burst → Idle) its own shot counter — never by an
external signal (the weapon step's result state does not depend on the
bullet list) — and the phase timer is reset to zero on every transition
except the hazard's Active → Dead transition, where the zone is flagged for
removal and the timer keeps its accumulated value. -/
theorem phase_transitions_timer_resets
    (dz : DangerZone) (j : Juggernaut) (dt : ℚ)
    (bullets : List Bullet) (aimDir : ℕ → Vec2) (aimCrit : ℕ → Bool) :
    (dz.phase = DangerZone.PHASE_WARNING →
      (DANGER_ZONE_WARNING_DURATION ≤ dz.timer + dt →
        (dz.update dt).1.phase = DangerZone.PHASE_ACTIVE ∧
        (dz.update dt).1.timer = 0 ∧ (dz.update dt).1.blast_timer = 0 ∧
        (dz.update dt).2 = true) ∧
      (dz.timer + dt < DANGER_ZONE_WARNING_DURATION →
        (dz.update dt).1.phase = DangerZone.PHASE_WARNING ∧ (dz.update dt).2 = true)) ∧
    (dz.phase = DangerZone.PHASE_ACTIVE →
      (DANGER_ZONE_ACTIVE_DURATION ≤ dz.timer + dt →
        (dz.update dt).1.phase = DangerZone.PHASE_DEAD ∧
        (dz.update dt).1.timer = dz.timer + dt ∧ (dz.update dt).2 = false) ∧
      (dz.timer + dt < DANGER_ZONE_ACTIVE_DURATION →
        (dz.update dt).1.phase = DangerZone.PHASE_ACTIVE ∧ (dz.update dt).2 = true)) ∧
    (j.weapon_phase = Juggernaut.PHASE_IDLE →
      (JUGGERNAUT_IDLE_TIME ≤ j.weapon_timer + dt →
        (j.update_weapon dt bullets aimDir aimCrit).1.weapon_phase = Juggernaut.PHASE_CHARGE ∧
        (j.update_weapon dt bullets aimDir aimCrit).1.weapon_timer = 0) ∧
      (j.weapon_timer + dt < JUGGERNAUT_IDLE_TIME →
        (j.update_weapon dt bullets aimDir aimCrit).1.weapon_phase = Juggernaut.PHASE_IDLE)) ∧
    (j.weapon_phase = Juggernaut.PHASE_CHARGE →
      (JUGGERNAUT_CHARGE_TIME ≤ j.weapon_timer + dt →
        (j.update_weapon dt bullets aimDir aimCrit).1.weapon_phase = Juggernaut.PHASE_BURST ∧
        (j.update_weapon dt bullets aimDir aimCrit).1.weapon_timer = 0) ∧
      (j.weapon_timer + dt < JUGGERNAUT_CHARGE_TIME →
        (j.update_weapon dt bullets aimDir aimCrit).1.weapon_phase = Juggernaut.PHASE_CHARGE)) ∧
    (j.weapon_phase = Juggernaut.PHASE_BURST →
      ((j.update_weapon dt bullets aimDir aimCrit).1.weapon_phase = Juggernaut.PHASE_IDLE ∨
       (j.update_weapon dt bullets aimDir aimCrit).1.weapon_phase = Juggernaut.PHASE_BURST) ∧
      ((j.update_weapon dt bullets aimDir aimCrit).1.weapon_phase = Juggernaut.PHASE_IDLE ↔
        JUGGERNAUT_BURST_COUNT ≤ (j.update_weapon dt bullets aimDir aimCrit).1.burst_count) ∧
      ((j.update_weapon dt bullets aimDir aimCrit).1.weapon_phase = Juggernaut.PHASE_IDLE →
        (j.update_weapon dt bullets aimDir aimCrit).1.weapon_timer = 0)) ∧
    (∀ b1 b2 : List Bullet,
      (j.update_weapon dt b1 aimDir aimCrit).1 = (j.update_weapon dt b2 aimDir aimCrit).1) := by
  refine ⟨fun hw => ⟨fun hth => ?_, fun hth => ?_⟩,
          fun ha => ⟨fun hth => ?_, fun hth => ?_⟩,
          fun hj => ⟨fun hth => ?_, fun hth => ?_⟩,
          fun hj => ⟨fun hth => ?_, fun hth => ?_⟩,
          fun hj => ?_, fun b1 b2 => ?_⟩
  · simp [DangerZone.update, hw, DangerZone.PHASE_WARNING, ge_iff_le, hth]
  · simp [DangerZone.update, hw, DangerZone.PHASE_WARNING, ge_iff_le, not_le.mpr hth]
  · simp [DangerZone.update, ha, DangerZone.PHASE_WARNING, DangerZone.PHASE_ACTIVE,
      ge_iff_le, hth]
    split <;> simp [hth]
  · simp [DangerZone.update, ha, DangerZone.PHASE_WARNING, DangerZone.PHASE_ACTIVE,
      ge_iff_le, not_le.mpr hth]
    split <;> simp [not_le.mpr hth]
  · simp [Juggernaut.update_weapon, hj, Juggernaut.PHASE_IDLE, ge_iff_le, hth]
  · simp [Juggernaut.update_weapon, hj, Juggernaut.PHASE_IDLE, ge_iff_le, not_le.mpr hth]
  · simp [Juggernaut.update_weapon, hj, Juggernaut.PHASE_IDLE, Juggernaut.PHASE_CHARGE,
      ge_iff_le, hth]
  · simp [Juggernaut.update_weapon, hj, Juggernaut.PHASE_IDLE, Juggernaut.PHASE_CHARGE,
      ge_iff_le, not_le.mpr hth]
  · simp only [Juggernaut.update_weapon, hj, Juggernaut.PHASE_IDLE, Juggernaut.PHASE_CHARGE,
      Juggernaut.PHASE_BURST]
    norm_num
    split <;> split <;> simp_all
  · simp only [Juggernaut.update_weapon]
    split_ifs <;> rfl

/-- Witness for the amended C9: a warning zone crossing its threshold
becomes Active with timer 0, and a fresh boss leaves Idle with timer 0. -/
theorem phase_transitions_timer_resets_witness :
    ((⟨100, 100, DANGER_ZONE_RADIUS, DangerZone.PHASE_WARNING, 199/100, 0⟩ : DangerZone).update
        (1/60)).1.phase = DangerZone.PHASE_ACTIVE ∧
    ((⟨100, 100, DANGER_ZONE_RADIUS, DangerZone.PHASE_WARNING, 199/100, 0⟩ : DangerZone).update
        (1/60)).1.timer = 0 ∧
    ((Juggernaut.init 640 360).update_weapon (1/60) [] (fun _ => ⟨1, 0⟩)
        (fun _ => false)).1.weapon_phase = Juggernaut.PHASE_CHARGE ∧
    ((Juggernaut.init 640 360).update_weapon (1/60) [] (fun _ => ⟨1, 0⟩)
        (fun _ => false)).1.weapon_timer = 0 := by
  have h := phase_transitions_timer_resets
      (⟨100, 100, DANGER_ZONE_RADIUS, DangerZone.PHASE_WARNING, 199/100, 0⟩ : DangerZone)
      (Juggernaut.init 640 360) (1/60) [] (fun _ => ⟨1, 0⟩) (fun _ => false)
  obtain ⟨hw, -, hi, -⟩ := h
  have h1 := (hw rfl).1 (by norm_num [DANGER_ZONE_WARNING_DURATION])
  have h2 := (hi rfl).1 (by norm_num [JUGGERNAUT_IDLE_TIME, Juggernaut.init])
  exact ⟨h1.1, h1.2.1, h2.1, h2.2⟩

-- ===========================================================================
-- Claim C7
-- ===========================================================================

/-- `_update_weapon` never changes the stored target snapshot. -/
theorem Juggernaut.update_weapon_all_targets (j : Juggernaut) (dt : ℚ)
    (bullets : List Bullet) (aimDir : ℕ → Vec2) (aimCrit : ℕ → Bool) :
    ((j.update_weapon dt bullets aimDir aimCrit).1).all_targets = j.all_targets := by
  simp only [Juggernaut.update_weapon]
  split_ifs <;> rfl

/-- C7: a burst pulse (Burst phase, sub-interval cooldown expired, pulse
budget not exhausted) appends exactly one projectile per stored alive
target, each the boss bullet aimed at its own target — velocity positively
proportional to the displacement to that target's position at fire time —
resets the sub-interval cooldown to `JUGGERNAUT_BURST_INTERVAL`, counts the
pulse, and returns the weapon to Idle exactly when
`JUGGERNAUT_BURST_COUNT` pulses have fired; the stored targets are the
alive tanks snapshotted by `update`. -/
theorem boss_burst_pulse
    (j : Juggernaut) (dt : ℚ) (bullets : List Bullet)
    (aimDir : ℕ → Vec2) (aimCrit : ℕ → Bool)
    (hphase : j.weapon_phase = Juggernaut.PHASE_BURST)
    (hcool : j.burst_cooldown - dt ≤ 0)
    (hcount : j.burst_count < JUGGERNAUT_BURST_COUNT)
    (hne : j.all_targets ≠ []) :
    (j.update_weapon dt bullets aimDir aimCrit).2 =
      bullets ++ (List.range j.all_targets.length).map
        (fun i => j.burstBullet (aimDir i) (aimCrit i)) ∧
    ((j.update_weapon dt bullets aimDir aimCrit).2).length =
      bullets.length + j.all_targets.length ∧
    (j.update_weapon dt bullets aimDir aimCrit).1.burst_cooldown =
      JUGGERNAUT_BURST_INTERVAL ∧
    (j.update_weapon dt bullets aimDir aimCrit).1.burst_count = j.burst_count + 1 ∧
    (JUGGERNAUT_BURST_COUNT ≤ j.burst_count + 1 →
      (j.update_weapon dt bullets aimDir aimCrit).1.weapon_phase = Juggernaut.PHASE_IDLE ∧
      (j.update_weapon dt bullets aimDir aimCrit).1.weapon_timer = 0) ∧
    (j.burst_count + 1 < JUGGERNAUT_BURST_COUNT →
      (j.update_weapon dt bullets aimDir aimCrit).1.weapon_phase = Juggernaut.PHASE_BURST) ∧
    (∀ i, ∀ hi : i < j.all_targets.length, ∀ dist : ℚ, 0 < dist →
      (aimDir i).x * dist = (j.all_targets.get ⟨i, hi⟩).pos.x - j.x →
      (aimDir i).y * dist = (j.all_targets.get ⟨i, hi⟩).pos.y - j.y →
      (j.burstBullet (aimDir i) (aimCrit i)).vx * dist =
        ((j.all_targets.get ⟨i, hi⟩).pos.x - j.x) * JUGGERNAUT_BULLET_SPEED ∧
      (j.burstBullet (aimDir i) (aimCrit i)).vy * dist =
        ((j.all_targets.get ⟨i, hi⟩).pos.y - j.y) * JUGGERNAUT_BULLET_SPEED) ∧
    (∀ (tanks : List Tank) (moveDist moveAngle : ℚ),
      ((j.update dt tanks bullets moveDist moveAngle aimDir aimCrit).1).all_targets =
        tanks.filter (fun t => t.alive)) := by
  have hkey : j.update_weapon dt bullets aimDir aimCrit =
      (if JUGGERNAUT_BURST_COUNT ≤ j.burst_count + 1 then
        { j with weapon_phase := Juggernaut.PHASE_IDLE, weapon_timer := 0
                 burst_count := j.burst_count + 1
                 burst_cooldown := JUGGERNAUT_BURST_INTERVAL }
      else
        { j with weapon_timer := j.weapon_timer + dt
                 burst_count := j.burst_count + 1
                 burst_cooldown := JUGGERNAUT_BURST_INTERVAL },
      bullets ++ (List.range j.all_targets.length).map
        (fun i => j.burstBullet (aimDir i) (aimCrit i))) := by
    simp only [Juggernaut.update_weapon, hphase, Juggernaut.PHASE_IDLE,
      Juggernaut.PHASE_CHARGE, Juggernaut.PHASE_BURST, Juggernaut.fire_omni_burst]
    norm_num
    split
    · simp only [List.isEmpty_iff, hne, Juggernaut.burstBullet, ite_false]
      split <;> rename_i hc <;> simp [hc]
    · rename_i hn
      exact absurd ⟨by linarith, hcount⟩ hn
  refine ⟨?_, ?_, ?_, ?_, fun hge => ?_, fun hlt => ?_, fun i hi dist hdist hdx hdy => ?_, ?_⟩
  · simp [hkey]
  · simp [hkey]
  · rw [hkey]
    split <;> rfl
  · rw [hkey]
    split <;> rfl
  · rw [hkey, if_pos hge]
    exact ⟨rfl, rfl⟩
  · rw [hkey, if_neg (by omega)]
    exact hphase
  · constructor
    · show (aimDir i).x * JUGGERNAUT_BULLET_SPEED * dist = _
      linear_combination JUGGERNAUT_BULLET_SPEED * hdx
    · show (aimDir i).y * JUGGERNAUT_BULLET_SPEED * dist = _
      linear_combination JUGGERNAUT_BULLET_SPEED * hdy
  · intro tanks moveDist moveAngle
    simp only [Juggernaut.update]
    rw [Juggernaut.update_weapon_all_targets]
    split <;> rfl

/-- Witness for C7: `sampleJug` (one stored target, cooldown expired) fires
exactly one bullet on its pulse. -/
theorem boss_burst_pulse_witness :
    ((sampleJug.update_weapon (1/60) [] (fun _ => ⟨3/5, 4/5⟩) (fun _ => false)).2).length = 1 ∧
    (sampleJug.update_weapon (1/60) [] (fun _ => ⟨3/5, 4/5⟩)
        (fun _ => false)).1.burst_count = 1 := by
  have h := boss_burst_pulse sampleJug (1/60) [] (fun _ => ⟨3/5, 4/5⟩) (fun _ => false)
      rfl (by norm_num [sampleJug, Juggernaut.init])
      (by norm_num [sampleJug, Juggernaut.init, JUGGERNAUT_BURST_COUNT])
      (by simp [sampleJug])
  refine ⟨?_, ?_⟩
  · rw [h.2.1]
    simp [sampleJug]
  · rw [h.2.2.2.1]
    simp [sampleJug]

-- ===========================================================================
-- Claim C6
-- ===========================================================================

/-- C6: when a gated (alive, loaded) tank's decision call returns after more
than `BOT_TIMEOUT_MS` milliseconds, the sandbox returns the distinct "LAG"
outcome with the returned action discarded — even if it was a valid pair —
the engine records "LAG" as the tank's `last_action` and processes no
action (the tank state is otherwise untouched and no bullet spawns), and
the decision gate for the next tick does not depend on `last_action`, so
the tank is eligible to act again. -/
theorem timeout_discards_action_records_lag
    (o : Oracle) (t : Tank) (elapsed_ms : ℚ) (isPair : Bool) (a : String) (p : BotParamV)
    (hgate : decisionGate o t = true)
    (hfunc : o.hasFunc t.id = true)
    (hcall : o.call t.id = BotCall.returns elapsed_ms isPair a p)
    (hlag : elapsed_ms > BOT_TIMEOUT_MS) :
    BotLoader.execute (o.hasFunc t.id) (o.call t.id) = (some "LAG", none) ∧
    decisionStep o t = ({ t with last_action := some "LAG" }, none) ∧
    (∀ v : Option String, decisionGate o { t with last_action := v } = decisionGate o t) := by
  have hexec : BotLoader.execute (o.hasFunc t.id) (o.call t.id) = (some "LAG", none) := by
    rw [hcall, hfunc]
    simp [BotLoader.execute, hlag]
  refine ⟨hexec, ?_, fun v => rfl⟩
  rw [decisionStep, if_pos hgate, hexec]
  simp

/-- Witness for C6: under `sampleOracle` every bot call takes 150 ms with a
valid MOVE pair; the tank stalls with a recorded "LAG". -/
theorem timeout_discards_action_records_lag_witness :
    decisionStep sampleOracle (Tank.init 0 100 100) =
      ({ Tank.init 0 100 100 with last_action := some "LAG" }, none) := by
  exact (timeout_discards_action_records_lag sampleOracle (Tank.init 0 100 100)
    150 true "MOVE" (BotParamV.movePair 1 0) rfl rfl rfl
    (by norm_num [BOT_TIMEOUT_MS])).2.1

-- ===========================================================================
-- Claim C5
-- ===========================================================================

/-- C5: when a projectile reaches the first alive tank other than its owner
whose rectangle it overlaps, the projectile is marked dead; in the
coin-collection ruleset (mode 1) the tank's health changes by exactly 0
regardless of the projectile's damage and the knockback impulse is still
applied; in every other ruleset the tank takes the projectile's damage, and
if the remaining health reaches 0 the tank is marked dead and the death
event for its id is emitted. -/
theorem bulletHitTanks_cons_miss
    (mode : ℕ) (dir : ℤ → Vec2) (b : Bullet) (u : Tank) (us : List Tank)
    (hu : ¬(u.alive = true ∧ u.id ≠ b.owner_id ∧ b.get_rect.colliderect u.get_rect = true)) :
    bulletHitTanks mode dir b (u :: us) =
      ((bulletHitTanks mode dir b us).1, u :: (bulletHitTanks mode dir b us).2.1,
       (bulletHitTanks mode dir b us).2.2) := by
  simp only [bulletHitTanks, if_neg hu]

theorem projectile_tank_collision
    (mode : ℕ) (dir : ℤ → Vec2) (b : Bullet) (pre post : List Tank) (t : Tank)
    (hpre : ∀ u ∈ pre, ¬(u.alive = true ∧ u.id ≠ b.owner_id ∧
      b.get_rect.colliderect u.get_rect = true))
    (halive : t.alive = true) (howner : t.id ≠ b.owner_id)
    (hcol : b.get_rect.colliderect t.get_rect = true) :
    (bulletHitTanks mode dir b (pre ++ t :: post)).1 = { b with alive := false } ∧
    (mode = 1 →
      (bulletHitTanks mode dir b (pre ++ t :: post)).2.1 =
        pre ++ t.apply_knockback (dir t.id) SCRAMBLE_KNOCKBACK :: post ∧
      (t.apply_knockback (dir t.id) SCRAMBLE_KNOCKBACK).health = t.health ∧
      (t.apply_knockback (dir t.id) SCRAMBLE_KNOCKBACK).velocity =
        t.velocity + (⟨(dir t.id).x * SCRAMBLE_KNOCKBACK * 15,
                       (dir t.id).y * SCRAMBLE_KNOCKBACK * 15⟩ : Vec2) ∧
      (bulletHitTanks mode dir b (pre ++ t :: post)).2.2 = []) ∧
    (mode ≠ 1 →
      (bulletHitTanks mode dir b (pre ++ t :: post)).2.1 =
        pre ++ t.take_damage b.damage :: post ∧
      (0 < t.health - b.damage →
        (t.take_damage b.damage).health = t.health - b.damage ∧
        (t.take_damage b.damage).alive = true ∧
        (bulletHitTanks mode dir b (pre ++ t :: post)).2.2 = []) ∧
      (t.health - b.damage ≤ 0 →
        (t.take_damage b.damage).health = 0 ∧
        (t.take_damage b.damage).alive = false ∧
        (bulletHitTanks mode dir b (pre ++ t :: post)).2.2 = [t.id])) := by
  induction pre with
  | nil =>
      have hhit : t.alive = true ∧ t.id ≠ b.owner_id ∧
          b.get_rect.colliderect t.get_rect = true := ⟨halive, howner, hcol⟩
      refine ⟨?_, fun hm => ?_, fun hm => ?_⟩
      · simp only [List.nil_append, bulletHitTanks, if_pos hhit]
        split <;> rfl
      · subst hm
        simp only [List.nil_append, bulletHitTanks, if_pos hhit, if_pos rfl]
        exact ⟨by trivial, by trivial, by trivial, by trivial⟩
      · simp only [List.nil_append, bulletHitTanks, if_pos hhit, if_neg hm]
        refine ⟨by trivial, fun hpos => ?_, fun hneg => ?_⟩
        · have hna : ¬(t.health - b.damage ≤ 0) := not_le.mpr hpos
          refine ⟨?_, ?_, ?_⟩ <;>
            simp [Tank.take_damage, hna, halive]
        · refine ⟨?_, ?_, ?_⟩ <;>
            simp [Tank.take_damage, hneg]
  | cons u us ih =>
      have hu : ¬(u.alive = true ∧ u.id ≠ b.owner_id ∧
          b.get_rect.colliderect u.get_rect = true) := hpre u (List.mem_cons_self u us)
      have hus : ∀ w ∈ us, ¬(w.alive = true ∧ w.id ≠ b.owner_id ∧
          b.get_rect.colliderect w.get_rect = true) :=
        fun w hw => hpre w (List.mem_cons_of_mem u hw)
      have ihs := ih hus
      simp only [List.cons_append]
      rw [bulletHitTanks_cons_miss mode dir b u (us ++ t :: post) hu]
      refine ⟨ihs.1, fun hm => ?_, fun hm => ?_⟩
      · have h2 := ihs.2.1 hm
        exact ⟨by rw [h2.1], h2.2.1, h2.2.2.1, by rw [h2.2.2.2]⟩
      · have h2 := ihs.2.2 hm
        refine ⟨by rw [h2.1], fun hpos => ?_, fun hneg => ?_⟩
        · have h3 := h2.2.1 hpos
          exact ⟨h3.1, h3.2.1, by rw [h3.2.2]⟩
        · have h3 := h2.2.2 hneg
          exact ⟨h3.1, h3.2.1, by rw [h3.2.2]⟩

/-- Witness for C5: in mode 1, a point-blank bullet owned by tank 1 hits
tank 0 without any health change; in mode 2 it deals its damage. -/
theorem projectile_tank_collision_witness :
    (bulletHitTanks 1 (fun _ => ⟨1, 0⟩) (Bullet.init 100 100 ⟨1, 0⟩ 1 false)
        ([] ++ Tank.init 0 100 100 :: [])).2.1 =
      [] ++ (Tank.init 0 100 100).apply_knockback ((fun (_ : ℤ) => (⟨1, 0⟩ : Vec2)) 0)
        SCRAMBLE_KNOCKBACK :: [] ∧
    ((Tank.init 0 100 100).apply_knockback ((fun (_ : ℤ) => (⟨1, 0⟩ : Vec2)) 0)
        SCRAMBLE_KNOCKBACK).health = (Tank.init 0 100 100).health := by
  have h := projectile_tank_collision 1 (fun _ => ⟨1, 0⟩)
      (Bullet.init 100 100 ⟨1, 0⟩ 1 false) [] [] (Tank.init 0 100 100)
      (by intro u hu; exact absurd hu (List.not_mem_nil u)) rfl
      (by norm_num [Tank.init, Bullet.init])
      (by norm_num [Rect.colliderect, Bullet.get_rect, Tank.get_rect, Rect.right,
        Rect.bottom, ratTrunc, Tank.init, Bullet.init, BULLET_SIZE, TANK_SIZE])
  have h2 := h.2.1 rfl
  exact ⟨h2.1, h2.2.1⟩

-- ===========================================================================
-- Claim C8
-- ===========================================================================

/-- C8 counterexample: `spawn_danger_zone` performs no tank-proximity check
at all (it does not even receive the tank list): with a tank at (100, 100),
the random position (100, 100) is accepted unconditionally and the spawned
hazard zone covers the tank's position (distance 0 < radius). -/
theorem spawn_danger_zone_ignores_tanks :
    spawn_danger_zone [] (100, 100) = [DangerZone.init 100 100] ∧
    ((100 : ℚ) - (Tank.init 0 100 100).pos.x) ^ 2 +
      ((100 : ℚ) - (Tank.init 0 100 100).pos.y) ^ 2 < DANGER_ZONE_RADIUS ^ 2 := by
  refine ⟨rfl, ?_⟩
  norm_num [Tank.init, DANGER_ZONE_RADIUS]

/-- C8 amended: coins are never placed near a tank — `spawn_coin` tries at
most 10 random positions, spawns only at one whose distance to every tank
is at least `2 * TANK_SIZE`, and gives up (spawning nothing) otherwise, and
it never exceeds the coin cap; hazard zones, by contrast, are appended at
the given random position unconditionally, with no tank-proximity retry. -/
theorem coin_spawn_avoids_tanks_hazard_spawn_does_not
    (tanks : List Tank) (coins : List Coin) (cands : List (ℚ × ℚ)) :
    (SCRAMBLE_MAX_COINS ≤ coins.length → spawn_coin tanks coins cands = coins) ∧
    (∀ c ∈ spawn_coin tanks coins cands, c ∈ coins ∨
      (c.collected = false ∧ ∀ t ∈ tanks,
        ((TANK_SIZE * 2 : ℤ) : ℚ) ^ 2 ≤ (c.x - t.pos.x) ^ 2 + (c.y - t.pos.y) ^ 2)) ∧
    (spawn_coin tanks coins cands = coins ∨
      ∃ p ∈ cands.take 10, spawn_coin tanks coins cands = coins ++ [⟨p.1, p.2, false⟩]) ∧
    (∀ (zones : List DangerZone) (pos : ℚ × ℚ),
      spawn_danger_zone zones pos = zones ++ [DangerZone.init pos.1 pos.2]) := by
  refine ⟨fun hcap => ?_, ?_, ?_, fun zones pos => rfl⟩
  · rw [spawn_coin, if_pos (by exact_mod_cast hcap)]
  · intro c hc
    rw [spawn_coin] at hc
    split at hc
    · exact Or.inl hc
    · rename_i hcap
      cases hfind : (cands.take 10).find? (fun c =>
          tanks.all (fun t =>
            ¬((c.1 - t.pos.x) ^ 2 + (c.2 - t.pos.y) ^ 2 < ((TANK_SIZE * 2 : ℤ) : ℚ) ^ 2))) with
      | none => rw [hfind] at hc; exact Or.inl hc
      | some p =>
          rw [hfind] at hc
          rcases List.mem_append.mp hc with h | h
          · exact Or.inl h
          · right
            have hpmem := List.mem_singleton.mp h
            have hp := List.find?_some hfind
            simp only [List.all_eq_true, decide_eq_true_eq] at hp
            subst hpmem
            exact ⟨rfl, fun t ht => not_lt.mp (hp t ht)⟩
  · rw [spawn_coin]
    split
    · exact Or.inl rfl
    · cases hfind : (cands.take 10).find? (fun c =>
          tanks.all (fun t =>
            ¬((c.1 - t.pos.x) ^ 2 + (c.2 - t.pos.y) ^ 2 < ((TANK_SIZE * 2 : ℤ) : ℚ) ^ 2))) with
      | none => exact Or.inl rfl
      | some p => exact Or.inr ⟨p, List.mem_of_find?_eq_some hfind, rfl⟩

/-- Witness for the amended C8: with one tank at (100, 100) and candidate
(400, 300), a coin spawns there, far from the tank; a hazard zone appended
at (100, 100) lands on the tank. -/
theorem coin_spawn_avoids_tanks_hazard_spawn_does_not_witness :
    spawn_danger_zone [] (100, 100) = [] ++ [DangerZone.init 100 100] ∧
    (SCRAMBLE_MAX_COINS ≤ ([] : List Coin).length →
      spawn_coin [Tank.init 0 100 100] [] [(400, 300)] = []) := by
  have h := coin_spawn_avoids_tanks_hazard_spawn_does_not
    [Tank.init 0 100 100] [] [(400, 300)]
  exact ⟨h.2.2.2 [] (100, 100), h.1⟩

-- ===========================================================================
-- Step lemmas for claim C1
-- ===========================================================================

theorem Tank.Step.stepRefl (t : Tank) : Tank.Step t t :=
  ⟨rfl, rfl, fun h => h, fun h => ⟨h, le_rfl⟩, le_rfl, fun h => h⟩

theorem Tank.Step.stepTrans {a b c : Tank} (h1 : Tank.Step a b) (h2 : Tank.Step b c) :
    Tank.Step a c := by
  obtain ⟨i1, m1, a1, hh1, am1, an1⟩ := h1
  obtain ⟨i2, m2, a2, hh2, am2, an2⟩ := h2
  refine ⟨i2.trans i1, m2.trans m1, fun h => a1 (a2 h), fun h => ?_,
    am2.trans am1, fun h => an2 (an1 h)⟩
  obtain ⟨hb0, hba⟩ := hh1 h
  obtain ⟨hc0, hcb⟩ := hh2 hb0
  exact ⟨hc0, hcb.trans hba⟩

theorem TankListStep.listRefl (l : List Tank) : TankListStep l l :=
  List.forall₂_same.mpr (fun t _ => Tank.Step.stepRefl t)

theorem TankListStep.listTrans {l1 l2 l3 : List Tank}
    (h1 : TankListStep l1 l2) (h2 : TankListStep l2 l3) : TankListStep l1 l3 := by
  unfold TankListStep at *
  induction h1 generalizing l3 with
  | nil => cases h2; exact List.Forall₂.nil
  | cons hab hrest ih =>
      cases h2 with
      | cons hbc hrest2 => exact List.Forall₂.cons (hab.stepTrans hbc) (ih hrest2)

theorem Tank.healthInv_of_step {a b : Tank} (ha : a.healthInv) (h : Tank.Step a b) :
    b.healthInv := by
  obtain ⟨_, hmax, _, hh, ham, han⟩ := h
  obtain ⟨i0, i1, i2, i3⟩ := ha
  obtain ⟨b0, bh⟩ := hh i0
  exact ⟨b0, by rw [hmax]; exact bh.trans i1, han i2, ham.trans i3⟩

theorem Tank.step_take_damage (t : Tank) (d : ℚ) (hd : 0 ≤ d) :
    Tank.Step t (t.take_damage d) := by
  simp only [Tank.take_damage]
  split
  · exact ⟨rfl, rfl, fun h => by simp at h, fun h => ⟨le_rfl, h⟩, le_rfl, fun h => h⟩
  · rename_i hgt
    exact ⟨rfl, rfl, fun h => h,
      fun _ => ⟨by dsimp only; linarith [not_le.mp hgt], by dsimp only; linarith⟩,
      le_rfl, fun h => h⟩

theorem Tank.take_damage_health_nonneg (t : Tank) (d : ℚ) :
    0 ≤ (t.take_damage d).health := by
  simp only [Tank.take_damage]
  split
  · exact le_rfl
  · rename_i hgt
    dsimp only
    linarith [not_le.mp hgt]

theorem Tank.take_damage_kills (t : Tank) (d : ℚ) (h : t.health - d ≤ 0) :
    (t.take_damage d).health = 0 ∧ (t.take_damage d).alive = false := by
  unfold Tank.take_damage
  rw [if_pos h]
  exact ⟨rfl, rfl⟩

theorem Tank.step_apply_knockback (t : Tank) (dir : Vec2) (f : ℚ) :
    Tank.Step t (t.apply_knockback dir f) :=
  ⟨rfl, rfl, fun h => h, fun h => ⟨h, le_rfl⟩, le_rfl, fun h => h⟩

theorem Tank.step_move (t : Tank) (dx dy : ℚ) (jd : Bool) (len na : ℚ) :
    Tank.Step t (t.move dx dy jd len na) := by
  unfold Tank.move
  split_ifs <;> exact ⟨rfl, rfl, fun h => h, fun h => ⟨h, le_rfl⟩, le_rfl, fun h => h⟩

theorem Tank.step_shoot (t : Tank) (dir : Vec2) (c : Bool) :
    Tank.Step t ((t.shoot dir c).1) := by
  simp only [Tank.shoot, Tank.apply_force]
  split
  · exact Tank.Step.stepRefl t
  · rename_i hgate
    push_neg at hgate
    refine ⟨rfl, rfl, fun h => h, fun h => ⟨h, le_rfl⟩, by dsimp only; omega, fun h => ?_⟩
    dsimp only
    have h2 := hgate.2.1
    omega

theorem Tank.shoot_gated_by_ammo (t : Tank) (dir : Vec2) (c : Bool) (h : t.ammo ≤ 0) :
    ((t.shoot dir c).1).ammo = t.ammo := by
  unfold Tank.shoot
  rw [if_pos (Or.inr (Or.inl h))]

theorem Bullet.init_damage_nonneg (x y : ℚ) (dir : Vec2) (oid : ℤ) (c : Bool) :
    0 ≤ (Bullet.init x y dir oid c).damage := by
  unfold Bullet.init
  split <;> norm_num [BULLET_DAMAGE, CRITICAL_HIT_MULTIPLIER]

theorem Tank.shoot_bullet_damage_nonneg (t : Tank) (dir : Vec2) (c : Bool) :
    ∀ bl, (t.shoot dir c).2 = some bl → 0 ≤ bl.damage := by
  unfold Tank.shoot
  split
  · intro bl h
    cases h
  · intro bl h
    rw [Option.some_inj.mp h.symm] at *
    exact Bullet.init_damage_nonneg _ _ _ _ _

theorem Tank.resolveWall_fields (t : Tank) (w : Wall) :
    (t.resolveWall w).id = t.id ∧ (t.resolveWall w).max_health = t.max_health ∧
    (t.resolveWall w).alive = t.alive ∧ (t.resolveWall w).health = t.health ∧
    (t.resolveWall w).ammo = t.ammo := by
  simp only [Tank.resolveWall]
  split
  · split <;> exact ⟨rfl, rfl, rfl, rfl, rfl⟩
  · exact ⟨rfl, rfl, rfl, rfl, rfl⟩

theorem Tank.foldl_resolveWall_fields (walls : List Wall) (t : Tank) :
    (walls.foldl Tank.resolveWall t).id = t.id ∧
    (walls.foldl Tank.resolveWall t).max_health = t.max_health ∧
    (walls.foldl Tank.resolveWall t).alive = t.alive ∧
    (walls.foldl Tank.resolveWall t).health = t.health ∧
    (walls.foldl Tank.resolveWall t).ammo = t.ammo := by
  induction walls generalizing t with
  | nil => exact ⟨rfl, rfl, rfl, rfl, rfl⟩
  | cons w ws ih =>
      have h1 := Tank.resolveWall_fields t w
      have h2 := ih (t.resolveWall w)
      simp only [List.foldl_cons]
      exact ⟨h2.1.trans h1.1, h2.2.1.trans h1.2.1, h2.2.2.1.trans h1.2.2.1,
        h2.2.2.2.1.trans h1.2.2.2.1, h2.2.2.2.2.trans h1.2.2.2.2⟩

theorem Tank.update_fields (t : Tank) (dt : ℚ) (walls : List Wall) :
    (t.update dt walls).id = t.id ∧ (t.update dt walls).max_health = t.max_health ∧
    (t.update dt walls).alive = t.alive ∧ (t.update dt walls).health = t.health ∧
    (t.update dt walls).ammo = t.ammo := by
  simp only [Tank.update]
  split_ifs <;>
    (refine ⟨?_, ?_, ?_, ?_, ?_⟩ <;>
      simp [Tank.foldl_resolveWall_fields])

theorem Tank.step_update (t : Tank) (dt : ℚ) (walls : List Wall) :
    Tank.Step t (t.update dt walls) := by
  have h := Tank.update_fields t dt walls
  exact ⟨h.1, h.2.1, fun hb => h.2.2.1 ▸ hb, fun hh => by rw [h.2.2.2.1]; exact ⟨hh, le_rfl⟩,
    le_of_eq h.2.2.2.2, fun hh => h.2.2.2.2 ▸ hh⟩

theorem bulletHitWalls_damage (b : Bullet) (walls : List Wall) :
    (bulletHitWalls b walls).damage = b.damage := by
  unfold bulletHitWalls
  split <;> rfl

theorem bulletHitTanks_step (mode : ℕ) (dir : ℤ → Vec2) (b : Bullet) (tanks : List Tank)
    (hb : 0 ≤ b.damage) :
    TankListStep tanks (bulletHitTanks mode dir b tanks).2.1 ∧
    (bulletHitTanks mode dir b tanks).1.damage = b.damage := by
  induction tanks with
  | nil => exact ⟨List.Forall₂.nil, rfl⟩
  | cons t ts ih =>
      simp only [bulletHitTanks]
      split
      · split
        · exact ⟨List.Forall₂.cons (Tank.step_apply_knockback t _ _) (TankListStep.listRefl ts), rfl⟩
        · exact ⟨List.Forall₂.cons (Tank.step_take_damage t b.damage hb) (TankListStep.listRefl ts),
            rfl⟩
      · exact ⟨List.Forall₂.cons (Tank.Step.stepRefl t) ih.1, ih.2⟩

theorem bulletsPhase_step (mode : ℕ) (hitDir : ℕ → ℤ → Vec2) (walls : List Wall)
    (bs : List Bullet) :
    ∀ (i : ℕ) (tanks : List Tank), (∀ b ∈ bs, 0 ≤ b.damage) →
    TankListStep tanks (bulletsPhase mode hitDir walls i bs tanks).2.1 ∧
    (∀ b ∈ (bulletsPhase mode hitDir walls i bs tanks).1, 0 ≤ b.damage) := by
  induction bs with
  | nil =>
      intro i tanks _
      exact ⟨TankListStep.listRefl tanks, fun b hb => absurd hb (List.not_mem_nil b)⟩
  | cons b bs ih =>
      intro i tanks hbs
      have hb : 0 ≤ b.damage := hbs b (List.mem_cons_self b bs)
      have hBd : 0 ≤ (bulletHitWalls (Bullet.update b) walls).damage := by
        rw [bulletHitWalls_damage]
        exact hb
      have hhit := bulletHitTanks_step mode (hitDir i)
        (bulletHitWalls (Bullet.update b) walls) tanks hBd
      have ihs := ih (i + 1)
        ((bulletHitTanks mode (hitDir i) (bulletHitWalls (Bullet.update b) walls) tanks).2.1)
        (fun x hx => hbs x (List.mem_cons_of_mem b hx))
      have hfst : (bulletsPhase mode hitDir walls i (b :: bs) tanks).1 =
          (bulletHitTanks mode (hitDir i) (bulletHitWalls (Bullet.update b) walls) tanks).1 ::
          (bulletsPhase mode hitDir walls (i + 1) bs
            ((bulletHitTanks mode (hitDir i) (bulletHitWalls (Bullet.update b) walls)
              tanks).2.1)).1 := rfl
      have hsnd : (bulletsPhase mode hitDir walls i (b :: bs) tanks).2.1 =
          (bulletsPhase mode hitDir walls (i + 1) bs
            ((bulletHitTanks mode (hitDir i) (bulletHitWalls (Bullet.update b) walls)
              tanks).2.1)).2.1 := rfl
      refine ⟨?_, ?_⟩
      · rw [hsnd]
        exact hhit.1.listTrans ihs.1
      · intro b' hb'
        rw [hfst] at hb'
        rcases List.mem_cons.mp hb' with h | h
        · rw [h, hhit.2]
          exact hBd
        · exact ihs.2 b' h

theorem process_bot_action_step (t : Tank) (o : TankOracle) (a : String)
    (p : Option BotParamV) :
    Tank.Step t (process_bot_action t o a p).1 ∧
    (∀ bl, (process_bot_action t o a p).2 = some bl → 0 ≤ bl.damage) := by
  unfold process_bot_action
  split_ifs <;>
    (repeat' split) <;>
    first
      | exact ⟨(Tank.step_move _ _ _ _ _ _).stepTrans (Tank.step_shoot _ _ _),
          Tank.shoot_bullet_damage_nonneg _ _ _⟩
      | exact ⟨Tank.step_shoot _ _ _, Tank.shoot_bullet_damage_nonneg _ _ _⟩
      | exact ⟨Tank.step_move _ _ _ _ _ _, fun bl h => by cases h⟩
      | exact ⟨⟨rfl, rfl, fun h => h, fun h => ⟨h, le_rfl⟩, le_rfl, fun h => h⟩,
          fun bl h => by cases h⟩

theorem decisionStep_step (o : Oracle) (t : Tank) :
    Tank.Step t (decisionStep o t).1 ∧
    (∀ bl, (decisionStep o t).2 = some bl → 0 ≤ bl.damage) := by
  have hla : ∀ v, Tank.Step t { t with last_action := v } :=
    fun v => ⟨rfl, rfl, fun h => h, fun h => ⟨h, le_rfl⟩, le_rfl, fun h => h⟩
  unfold decisionStep
  split
  · (repeat' split) <;>
      first
      | exact ⟨(hla _).stepTrans (process_bot_action_step _ _ _ _).1,
          (process_bot_action_step _ _ _ _).2⟩
      | exact ⟨hla _, fun bl h => by cases h⟩
  · exact ⟨Tank.Step.stepRefl t, fun bl h => by cases h⟩

theorem decisionsPhase_step (o : Oracle) (tanks : List Tank) :
    TankListStep tanks (decisionsPhase o tanks).1 ∧
    (∀ b ∈ (decisionsPhase o tanks).2, 0 ≤ b.damage) := by
  induction tanks with
  | nil => exact ⟨List.Forall₂.nil, fun b hb => absurd hb (List.not_mem_nil b)⟩
  | cons t ts ih =>
      have hd := decisionStep_step o t
      have hsnd : (decisionsPhase o (t :: ts)).2 =
          (match (decisionStep o t).2 with | some bl => [bl] | none => []) ++
          (decisionsPhase o ts).2 := rfl
      refine ⟨List.Forall₂.cons hd.1 ih.1, ?_⟩
      intro b hb
      rw [hsnd] at hb
      rcases List.mem_append.mp hb with h | h
      · cases hopt : (decisionStep o t).2 with
        | none => rw [hopt] at h; cases h
        | some bl =>
            rw [hopt] at h
            rw [List.mem_singleton.mp h]
            exact hd.2 bl hopt
      · exact ih.2 b h

theorem physicsStep_step (mode : ℕ) (zone : Zone) (dt : ℚ) (walls : List Wall)
    (t : Tank) (hdt : 0 ≤ dt) :
    Tank.Step t (physicsStep mode zone dt walls t).1 := by
  simp only [physicsStep]
  split
  · split
    · exact (Tank.step_update t dt walls).stepTrans
        (Tank.step_take_damage _ _ (mul_nonneg (by norm_num [LABYRINTH_ZONE_DAMAGE]) hdt))
    · exact Tank.step_update t dt walls
  · exact Tank.Step.stepRefl t

theorem physicsPhase_step (mode : ℕ) (zone : Zone) (dt : ℚ) (walls : List Wall)
    (tanks : List Tank) (hdt : 0 ≤ dt) :
    TankListStep tanks (physicsPhase mode zone dt walls tanks).1 := by
  induction tanks with
  | nil => exact List.Forall₂.nil
  | cons t ts ih =>
      exact List.Forall₂.cons (physicsStep_step mode zone dt walls t hdt) ih

theorem DangerZone.step_apply_damage (dz : DangerZone) (t : Tank) (dir : Vec2) :
    Tank.Step t (dz.apply_damage t dir) := by
  unfold DangerZone.apply_damage
  split
  · exact (Tank.step_take_damage t _ (by norm_num [DANGER_ZONE_DAMAGE])).stepTrans
      (Tank.step_apply_knockback _ _ _)
  · exact Tank.Step.stepRefl t

theorem dzApplyAll_step (dz : DangerZone) (dir : ℤ → Vec2) (tanks : List Tank) :
    TankListStep tanks (dzApplyAll dz dir tanks).1 := by
  induction tanks with
  | nil => exact List.Forall₂.nil
  | cons t ts ih =>
      simp only [dzApplyAll]
      split
      · exact List.Forall₂.cons (DangerZone.step_apply_damage dz t _) ih
      · exact List.Forall₂.cons (Tank.Step.stepRefl t) ih

theorem dangerZonesPhase_step (dzDir : ℕ → ℤ → Vec2) (dt : ℚ) (dzs : List DangerZone) :
    ∀ (zi : ℕ) (tanks : List Tank),
      TankListStep tanks (dangerZonesPhase dzDir dt zi dzs tanks).2.1 := by
  induction dzs with
  | nil => exact fun zi tanks => TankListStep.listRefl tanks
  | cons dz rest ih =>
      intro zi tanks
      simp only [dangerZonesPhase]
      split
      · exact (dzApplyAll_step (dz.update dt).1 (dzDir zi) tanks).listTrans (ih (zi + 1) _)
      · exact ih (zi + 1) tanks

theorem Juggernaut.step_apply_melee_damage (j : Juggernaut) (t : Tank) (dir : Vec2) :
    Tank.Step t (j.apply_melee_damage t dir) := by
  unfold Juggernaut.apply_melee_damage
  split
  · exact (Tank.step_take_damage t _ (by norm_num [JUGGERNAUT_MELEE_DAMAGE])).stepTrans
      (Tank.step_apply_knockback _ _ _)
  · exact Tank.Step.stepRefl t

theorem meleePhase_step (j : Juggernaut) (meleeDir : ℤ → Vec2) (tanks : List Tank) :
    TankListStep tanks (meleePhase j meleeDir tanks).1 := by
  induction tanks with
  | nil => exact List.Forall₂.nil
  | cons t ts ih =>
      simp only [meleePhase]
      split
      · exact List.Forall₂.cons (Juggernaut.step_apply_melee_damage j t _) ih
      · exact List.Forall₂.cons (Tank.Step.stepRefl t) ih

theorem coinPick_step (c : Coin) (tanks : List Tank) :
    TankListStep tanks (coinPick c tanks).2 := by
  induction tanks with
  | nil => exact List.Forall₂.nil
  | cons t ts ih =>
      simp only [coinPick]
      split
      · exact List.Forall₂.cons
          ⟨rfl, rfl, fun h => h, fun h => ⟨h, le_rfl⟩, le_rfl, fun h => h⟩
          (TankListStep.listRefl ts)
      · exact List.Forall₂.cons (Tank.Step.stepRefl t) ih

theorem coinPickup_step (coins : List Coin) : ∀ tanks : List Tank,
    TankListStep tanks (coinPickup coins tanks).2 := by
  induction coins with
  | nil => exact fun tanks => TankListStep.listRefl tanks
  | cons c cs ih =>
      intro tanks
      simp only [coinPickup]
      split
      · exact ih tanks
      · exact (coinPick_step c tanks).listTrans (ih _)

theorem fire_omni_burst_damage (j : Juggernaut) (bullets : List Bullet)
    (f : ℕ → Vec2) (g : ℕ → Bool) (hbs : ∀ b ∈ bullets, 0 ≤ b.damage) :
    ∀ b ∈ j.fire_omni_burst bullets f g, 0 ≤ b.damage := by
  intro b hb
  unfold Juggernaut.fire_omni_burst at hb
  split at hb
  · exact hbs b hb
  · rcases List.mem_append.mp hb with h | h
    · exact hbs b h
    · rcases List.mem_map.mp h with ⟨i, -, rfl⟩
      show (0 : ℚ) ≤ JUGGERNAUT_BULLET_DAMAGE
      norm_num [JUGGERNAUT_BULLET_DAMAGE]

theorem update_weapon_bullets_damage (j : Juggernaut) (dt : ℚ) (bullets : List Bullet)
    (f : ℕ → Vec2) (g : ℕ → Bool) (hbs : ∀ b ∈ bullets, 0 ≤ b.damage) :
    ∀ b ∈ (j.update_weapon dt bullets f g).2, 0 ≤ b.damage := by
  intro b hb
  simp only [Juggernaut.update_weapon] at hb
  split_ifs at hb <;>
    first
    | exact hbs b hb
    | exact fire_omni_burst_damage _ _ _ _ hbs b hb

theorem jug_update_bullets_damage (j : Juggernaut) (dt : ℚ) (tanks : List Tank)
    (bullets : List Bullet) (d a : ℚ) (f : ℕ → Vec2) (g : ℕ → Bool)
    (hbs : ∀ b ∈ bullets, 0 ≤ b.damage) :
    ∀ b ∈ (j.update dt tanks bullets d a f g).2, 0 ≤ b.damage := by
  intro b hb
  simp only [Juggernaut.update] at hb
  split at hb <;> exact update_weapon_bullets_damage _ _ _ _ _ hbs b hb

theorem healthInv_all_of_step {l1 l2 : List Tank} (h : TankListStep l1 l2)
    (hinv : ∀ t ∈ l1, t.healthInv) : ∀ t ∈ l2, t.healthInv := by
  unfold TankListStep at h
  induction h with
  | nil => exact fun t ht => absurd ht (List.not_mem_nil t)
  | cons hab hrest ih =>
      intro t ht
      rcases List.mem_cons.mp ht with rfl | ht'
      · exact Tank.healthInv_of_step (hinv _ (List.mem_cons_self _ _)) hab
      · exact ih (fun u hu => hinv u (List.mem_cons_of_mem _ hu)) t ht'

theorem mode1Timers_safe (s1 : GameState) (dt : ℚ) (o : Oracle)
    (hb : ∀ b ∈ s1.bullets, 0 ≤ b.damage) :
    TankListStep s1.tanks (s1.mode1Timers dt o).tanks ∧
    (∀ b ∈ (s1.mode1Timers dt o).bullets, 0 ≤ b.damage) := by
  exact ⟨TankListStep.listRefl _, hb⟩

theorem mode2Timers_safe (s1 : GameState) (dt : ℚ) (o : Oracle)
    (hb : ∀ b ∈ s1.bullets, 0 ≤ b.damage) :
    TankListStep s1.tanks (s1.mode2Timers dt o).tanks ∧
    (∀ b ∈ (s1.mode2Timers dt o).bullets, 0 ≤ b.damage) := by
  exact ⟨dangerZonesPhase_step o.dzDir dt _ 0 s1.tanks, hb⟩

theorem mode3Timers_safe (s1 : GameState) (dt : ℚ) (o : Oracle)
    (hb : ∀ b ∈ s1.bullets, 0 ≤ b.damage) :
    TankListStep s1.tanks (s1.mode3Timers dt o).tanks ∧
    (∀ b ∈ (s1.mode3Timers dt o).bullets, 0 ≤ b.damage) := by
  simp only [GameState.mode3Timers]
  split
  · exact ⟨meleePhase_step _ o.meleeDir s1.tanks,
      jug_update_bullets_damage _ dt s1.tanks s1.bullets _ _ _ _ hb⟩
  · exact ⟨TankListStep.listRefl _, hb⟩

theorem GameState.tickMain_safe (s : GameState) (dt : ℚ) (o : Oracle)
    (hdt : 0 ≤ dt) (hbul : ∀ b ∈ s.bullets, 0 ≤ b.damage) :
    TankListStep s.tanks (s.tickMain dt o).tanks ∧
    (∀ b ∈ (s.tickMain dt o).bullets, 0 ≤ b.damage) := by
  have h1 := bulletsPhase_step s.game_mode o.hitDir s.walls s.bullets 0 s.tanks hbul
  have hdec := decisionsPhase_step o
    (bulletsPhase s.game_mode o.hitDir s.walls 0 s.bullets s.tanks).2.1
  have hphys := physicsPhase_step s.game_mode s.zone dt s.walls
    (decisionsPhase o
      (bulletsPhase s.game_mode o.hitDir s.walls 0 s.bullets s.tanks).2.1).1 hdt
  refine ⟨(h1.1.listTrans hdec.1).listTrans hphys, ?_⟩
  intro b hb
  rcases List.mem_append.mp hb with h | h
  · exact h1.2 b (List.mem_filter.mp h).1
  · exact hdec.2 b h

theorem GameState.coinPhase_safe (s2 : GameState)
    (hb : ∀ b ∈ s2.bullets, 0 ≤ b.damage) :
    TankListStep s2.tanks s2.coinPhase.tanks ∧
    (∀ b ∈ s2.coinPhase.bullets, 0 ≤ b.damage) :=
  ⟨coinPickup_step s2.coins s2.tanks, hb⟩

theorem GameState.update_safe (s : GameState) (dt : ℚ) (o : Oracle)
    (hdt : 0 ≤ dt) (hbul : ∀ b ∈ s.bullets, 0 ≤ b.damage) :
    TankListStep s.tanks (s.update dt o).tanks ∧
    (∀ b ∈ (s.update dt o).bullets, 0 ≤ b.damage) := by
  have h1 := GameState.tickMain_safe s dt o hdt hbul
  have hm1 := mode1Timers_safe (s.tickMain dt o) dt o h1.2
  have hm2 := mode2Timers_safe (s.tickMain dt o) dt o h1.2
  have hm3 := mode3Timers_safe (s.tickMain dt o) dt o h1.2
  simp only [GameState.update]
  split
  · exact ⟨TankListStep.listRefl _, hbul⟩
  · split_ifs <;>
      first
      | exact ⟨h1.1.listTrans ((hm1.1).listTrans (GameState.coinPhase_safe _ hm1.2).1),
          (GameState.coinPhase_safe _ hm1.2).2⟩
      | exact ⟨h1.1.listTrans (hm1.1), hm1.2⟩
      | exact ⟨h1.1.listTrans ((hm2.1).listTrans (GameState.coinPhase_safe _ hm2.2).1),
          (GameState.coinPhase_safe _ hm2.2).2⟩
      | exact ⟨h1.1.listTrans (hm2.1), hm2.2⟩
      | exact ⟨h1.1.listTrans ((hm3.1).listTrans (GameState.coinPhase_safe _ hm3.2).1),
          (GameState.coinPhase_safe _ hm3.2).2⟩
      | exact ⟨h1.1.listTrans (hm3.1), hm3.2⟩

theorem GameState.update_inv (s : GameState) (dt : ℚ) (o : Oracle)
    (hdt : 0 ≤ dt) (hinv : s.Inv) : (s.update dt o).Inv := by
  obtain ⟨htanks, hbul⟩ := hinv
  have h := GameState.update_safe s dt o hdt hbul
  exact ⟨healthInv_all_of_step h.1 htanks, h.2⟩

theorem runTicks_safe (steps : List (ℚ × Oracle)) : ∀ s : GameState,
    (∀ p ∈ steps, 0 ≤ p.1) → s.Inv →
    (runTicks s steps).Inv ∧ TankListStep s.tanks (runTicks s steps).tanks := by
  induction steps with
  | nil => exact fun s _ hinv => ⟨hinv, TankListStep.listRefl _⟩
  | cons p ps ih =>
      intro s h hinv
      have h0s := GameState.update_safe s p.1 p.2 (h p (List.mem_cons_self p ps)) hinv.2
      have h0 : (s.update p.1 p.2).Inv :=
        GameState.update_inv s p.1 p.2 (h p (List.mem_cons_self p ps)) hinv
      have h1 := ih (s.update p.1 p.2) (fun q hq => h q (List.mem_cons_of_mem p hq)) h0
      exact ⟨h1.1, h0s.1.listTrans h1.2⟩

theorem decisionGate_alive (o : Oracle) (t : Tank) (h : decisionGate o t = true) :
    t.alive = true := by
  unfold decisionGate at h
  exact ((Bool.and_eq_true _ _).mp h).1

theorem decisionStep_dead (o : Oracle) (t : Tank) (h : t.alive = false) :
    decisionStep o t = (t, none) := by
  unfold decisionStep
  rw [if_neg]
  simp [decisionGate, h]

-- ===========================================================================
-- Claim C1
-- ===========================================================================

/-- C1: over any engine tick (and any sequence of ticks) with nonnegative
timestep, every tank's health and ammo stay within `[0, max]`;
`take_damage` never leaves health below 0 (it clamps to 0 and clears the
alive flag at the same moment, so a tank is marked dead exactly once —
`TankListStep` says the alive flag can never return to true); `shoot`
leaves ammo unchanged when ammo ≤ 0; and the engine invokes a tank's
decision module only when its alive flag is set, a dead tank's decision
step being the identity — so once dead, a tank never receives decision
input for the rest of the session. -/
theorem health_ammo_bounds_and_death_monotone
    (s : GameState) (dt : ℚ) (o : Oracle) (hdt : 0 ≤ dt) (hinv : s.Inv) :
    (s.update dt o).Inv ∧
    TankListStep s.tanks (s.update dt o).tanks ∧
    (∀ t : Tank, decisionGate o t = true → t.alive = true) ∧
    (∀ t : Tank, t.alive = false → decisionStep o t = (t, none)) ∧
    (∀ (t : Tank) (dir : Vec2) (c : Bool), t.ammo ≤ 0 → ((t.shoot dir c).1).ammo = t.ammo) ∧
    (∀ (t : Tank) (d : ℚ), 0 ≤ (t.take_damage d).health ∧
      (t.health - d ≤ 0 → (t.take_damage d).health = 0 ∧ (t.take_damage d).alive = false)) ∧
    (∀ steps : List (ℚ × Oracle), (∀ p ∈ steps, 0 ≤ p.1) →
      (runTicks s steps).Inv ∧ TankListStep s.tanks (runTicks s steps).tanks) :=
  ⟨GameState.update_inv s dt o hdt hinv,
   (GameState.update_safe s dt o hdt hinv.2).1,
   decisionGate_alive o,
   decisionStep_dead o,
   Tank.shoot_gated_by_ammo,
   fun t d => ⟨Tank.take_damage_health_nonneg t d, Tank.take_damage_kills t d⟩,
   fun steps h => runTicks_safe steps s h hinv⟩

/-- Witness for C1: one tick of the concrete two-tank Scramble session
under `sampleOracle` keeps the session invariant and the per-tank safety
relation. -/
theorem health_ammo_bounds_and_death_monotone_witness :
    (sampleState.update (1/60) sampleOracle).Inv ∧
    TankListStep sampleState.tanks (sampleState.update (1/60) sampleOracle).tanks := by
  have h := health_ammo_bounds_and_death_monotone sampleState (1/60) sampleOracle
    (by norm_num)
    (by
      constructor
      · intro t ht
        simp only [sampleState, List.mem_cons, List.not_mem_nil, or_false] at ht
        rcases ht with rfl | rfl <;>
          exact ⟨by norm_num [Tank.init, TANK_MAX_HEALTH],
                 by norm_num [Tank.init, TANK_MAX_HEALTH],
                 by norm_num [Tank.init, TANK_STARTING_AMMO],
                 by norm_num [Tank.init, TANK_STARTING_AMMO]⟩
      · intro b hb
        simp [sampleState] at hb)
  exact ⟨h.1, h.2.1⟩

end GitWars
